import Mathlib

/-!
# NEMU riscv64 MMU / PMP / SPMP: shallow embedding of `src/isa/riscv64/system/mmu.c`

Machine words (`word_t`, `vaddr_t`, `paddr_t`, all `uint64_t` on riscv64) are natural
numbers reduced modulo `2 ^ 64` wherever the C arithmetic can wrap.  The non-local exit
`longjmp_exception(ex)` and a failing `assert` are explicit outcomes of type `Res`.
-/

namespace NEMU

/-! ## Constants declared in headers outside `src/` -/

/-- Modelled from the spec: the privilege-mode encodings (`MODE_U`, `MODE_S`, `MODE_M`) live in
a header that is not under `src/`; the architectural encodings are used, so that "below
machine" is `< MODE_M`. -/
def MODE_U : Nat := 0
/-- Modelled from the spec: supervisor privilege-mode encoding (header not under `src/`). -/
def MODE_S : Nat := 1
/-- Modelled from the spec: machine privilege-mode encoding (header not under `src/`). -/
def MODE_M : Nat := 3

/-- Modelled from the spec: access-class tag of an instruction fetch (header not under `src/`). -/
def MEM_TYPE_IFETCH : Nat := 0
/-- Modelled from the spec: access-class tag of a load (header not under `src/`). -/
def MEM_TYPE_READ : Nat := 1
/-- Modelled from the spec: access-class tag of a store (header not under `src/`). -/
def MEM_TYPE_WRITE : Nat := 2
/-- Modelled from the spec: tag of a page-table read made on behalf of a fetch. -/
def MEM_TYPE_IFETCH_READ : Nat := 3
/-- Modelled from the spec: tag of a page-table read made on behalf of a store. -/
def MEM_TYPE_WRITE_READ : Nat := 4

/-- Modelled from the spec: exception number of the instruction-page-fault. -/
def EX_IPF : Nat := 12
/-- Modelled from the spec: exception number of the load-page-fault. -/
def EX_LPF : Nat := 13
/-- Modelled from the spec: exception number of the store/AMO-page-fault. -/
def EX_SPF : Nat := 15
/-- Modelled from the spec: exception number of the load-address-misaligned fault. -/
def EX_LAM : Nat := 4
/-- Modelled from the spec: exception number of the store/AMO-address-misaligned fault. -/
def EX_SAM : Nat := 6

/-- Modelled from the spec: the success marker OR-ed into a translated base. -/
def MEM_RET_OK : Nat := 0
/-- Modelled from the spec: the failure marker returned by the walker. -/
def MEM_RET_FAIL : Nat := 1
/-- Modelled from the spec: MMU mode "Direct". -/
def MMU_DIRECT : Nat := 0
/-- Modelled from the spec: MMU mode "Translate". -/
def MMU_TRANSLATE : Nat := 1

/-- Width of a machine word. -/
def WORD : Nat := 2 ^ 64

/-- Bitwise complement of a 64-bit word (`~x` on `uint64_t`). -/
def not64 (x : Nat) : Nat := WORD - 1 - x % WORD

/-! ## Architectural state -/

/-- Build-time switches that select between `#ifdef` branches of the source. -/
structure Config where
  /-- `CONFIG_SHARE`: accessed/dirty bits are updated by exception, not by the walker. -/
  share : Bool
  /-- `CONFIG_AC_SOFT`: software-enforced natural alignment. -/
  ac_soft : Bool

/-- The part of the simulator state that `mmu.c` reads or writes. -/
structure State where
  /-- Field `cpu.mode`. -/
  mode : Nat
  /-- Field `cpu.amo`. -/
  amo : Bool
  /-- Field `mstatus->mprv`. -/
  mprv : Bool
  /-- Field `mstatus->mpp`. -/
  mpp : Nat
  /-- Field `mstatus->sum`. -/
  sum : Bool
  /-- Field `mstatus->mxr`. -/
  mxr : Bool
  /-- Field `satp->mode`. -/
  satp_mode : Nat
  /-- Field `satp->ppn` (44 bits). -/
  satp_ppn : Nat
  /-- Register `stval->val`. -/
  stval : Nat
  /-- Register `mtval->val`. -/
  mtval : Nat
  /-- Modelled from the spec: the result of the absent helper `intr_deleg_S(ex)`, which tells
  whether exception `ex` is delegated to supervisor mode; it selects the architectural
  trap-value register. -/
  deleg_S : Nat → Bool
  /-- Modelled from the spec: the physical backing store, as the 8-byte word found at each
  (aligned) physical address; read by `paddr_read` and written by `paddr_write`. -/
  mem : Nat → Nat
  /-- Static `ifetch_mmu_state`. -/
  ifetch_mmu_state : Nat
  /-- Static `data_mmu_state`. -/
  data_mmu_state : Nat

/-- Outcome of a call that may leave through `longjmp_exception` or a failed `assert`. -/
inductive Res (α : Type) where
  /-- Normal return with a value and the state after the call. -/
  | ret : α → State → Res α
  /-- The call left through `longjmp_exception(ex)`. -/
  | raise : Nat → State → Res α
  /-- An `assert` failed. -/
  | abort : Res α

/-- Modelled from the spec: `paddr_read(addr, 8, ...)`, the external backing-store read. -/
def paddr_read (s : State) (addr : Nat) : Nat := s.mem addr % WORD

/-- Modelled from the spec: `paddr_write(addr, 8, data, ...)`, the external backing-store
write. -/
def paddr_write (s : State) (addr data : Nat) : State :=
  { s with mem := fun a => if a = addr then data % WORD else s.mem a }

/-- Modelled from the spec: the register denoted by the absent macro `INTR_TVAL_REG(ex)`:
the architectural trap-value register of the mode that takes exception `ex`. -/
def tval_reg (s : State) (ex : Nat) : Nat := if s.deleg_S ex then s.stval else s.mtval

/-- Modelled from the spec: the assignment `INTR_TVAL_REG(ex) = v`. -/
def set_tval (s : State) (ex v : Nat) : State :=
  if s.deleg_S ex then { s with stval := v } else { s with mtval := v }

/-! ## Page-table entries -/

/-- The union `PageTableEntry`, kept as its 64-bit value `val`. -/
structure PTE where
  /-- The raw 64-bit entry. -/
  val : Nat

namespace PTE
/-- Bit 0: valid. -/
def v (p : PTE) : Bool := p.val.testBit 0
/-- Bit 1: readable. -/
def r (p : PTE) : Bool := p.val.testBit 1
/-- Bit 2: writable. -/
def w (p : PTE) : Bool := p.val.testBit 2
/-- Bit 3: executable. -/
def x (p : PTE) : Bool := p.val.testBit 3
/-- Bit 4: user. -/
def u (p : PTE) : Bool := p.val.testBit 4
/-- Bit 6: accessed. -/
def a (p : PTE) : Bool := p.val.testBit 6
/-- Bit 7: dirty. -/
def d (p : PTE) : Bool := p.val.testBit 7
/-- Bits 10..53: physical page number. -/
def ppn (p : PTE) : Nat := (p.val >>> 10) % 2 ^ 44
end PTE

/-- Macro `PGSHFT`. -/
def PGSHFT : Nat := 12
/-- Macro `PGMASK`: `(1ull << PGSHFT) - 1`. -/
def PGMASK : Nat := (1 <<< PGSHFT) - 1
/-- Macro `PGBASE(pn)`: `pn << PGSHFT`.  The macro has no cast and both of its uses apply it
to a bit-field, `PGBASE(satp->ppn)` and `PGBASE(pte.ppn)`, declared `uint64_t ppn : 44`; the
compiler evaluates the shift in the 44-bit unsigned type of the bit-field, so the result is
reduced modulo `2 ^ 44` before it is widened to `word_t`. -/
def PGBASE (pn : Nat) : Nat := (pn <<< PGSHFT) % 2 ^ 44
/-- Macro `PTW_LEVEL`: the number of levels of an Sv39 walk. -/
def PTW_LEVEL : Nat := 3
/-- Macro `PTE_SIZE`. -/
def PTE_SIZE : Nat := 8
/-- Macro `VPNMASK`. -/
def VPNMASK : Nat := 0x1ff
/-- Function `VPNiSHFT(i)`. -/
def VPNiSHFT (i : Nat) : Nat := PGSHFT + 9 * i
/-- Function `VPNi(va, i)`. -/
def VPNi (va i : Nat) : Nat := (va >>> VPNiSHFT i) &&& VPNMASK

/-- The effective mode of `check_permission`, `update_mmu_state_internal` and
`isa_mmu_check`: `mstatus->mprv && !ifetch ? mstatus->mpp : cpu.mode`. -/
def eff_mode (s : State) (ifetch : Bool) : Nat :=
  if s.mprv && !ifetch then s.mpp else s.mode

/-- Function `check_permission(pte, ok, vaddr, type)`. -/
def check_permission (cfg : Config) (s : State) (pte : PTE) (ok : Bool) (vaddr type : Nat) :
    Res Bool :=
  let ifetch := type == MEM_TYPE_IFETCH
  let mode := eff_mode s ifetch
  if !(mode == MODE_U || mode == MODE_S) then .abort else
  let ok := ok && pte.v
  let ok := ok && !(mode == MODE_U && !pte.u)
  let ok := ok && !(pte.u && ((mode == MODE_S) && (!s.sum || ifetch)))
  if ifetch then
    let update_ad := if cfg.share then !pte.a else false
    if !(ok && pte.x) || update_ad then
      if s.amo then .abort else
      .raise EX_IPF (set_tval s EX_IPF vaddr)
    else .ret true s
  else if type == MEM_TYPE_READ then
    let can_load := pte.r || (s.mxr && pte.x)
    let update_ad := if cfg.share then !pte.a else false
    if !(ok && can_load) || update_ad then
      let ex := if s.amo then EX_SPF else EX_LPF
      .raise ex { set_tval s ex vaddr with amo := false }
    else .ret true s
  else
    let update_ad := if cfg.share then (!pte.a || !pte.d) else false
    if !(ok && pte.w) || update_ad then
      .raise EX_SPF { set_tval s EX_SPF vaddr with amo := false }
    else .ret true s

/-- The 39-bit sign extension `((int64_t)(vaddr << 25)) >> 25`, read back as `uint64_t`. -/
def sext39 (vaddr : Nat) : Nat :=
  let lo := vaddr % 2 ^ 39
  if lo.testBit 38 then lo + (WORD - 2 ^ 39) else lo

/-- The tag `ptw` passes to `paddr_read` for a page-table read. -/
def ptw_read_tag (type : Nat) : Nat :=
  if type == MEM_TYPE_IFETCH then MEM_TYPE_IFETCH_READ
  else if type == MEM_TYPE_WRITE then MEM_TYPE_WRITE_READ else MEM_TYPE_READ

/-- How the `for` loop of `ptw` was left. -/
inductive WalkExit where
  /-- Left by `break`: the entry read at `level` is a leaf. -/
  | leaf
  /-- Left by `goto bad` because the entry is invalid or writable without readable. -/
  | structural
  /-- Left by `goto bad` because `level` dropped below 0. -/
  | underflow
  deriving DecidableEq, Repr

/-- Locals of `ptw` when its `for` loop is left, and the `paddr_read` calls made so far
(address and tag, oldest first). -/
structure WalkRes where
  exit : WalkExit
  /-- Level of the last entry read. -/
  level : Nat
  pte : PTE
  p_pte : Nat
  pg_base : Nat
  reads : List (Nat × Nat)

/-- The `for (level = PTW_LEVEL - 1; level >= 0;)` loop of `ptw`, entered at `level` with
table base `pg_base`. -/
def walk (s : State) (vaddr type : Nat) : Nat → Nat → List (Nat × Nat) → WalkRes
  | level, pg_base, reads =>
    let p_pte := (pg_base + VPNi vaddr level * PTE_SIZE) % WORD
    let pte : PTE := ⟨paddr_read s p_pte⟩
    let reads := reads ++ [(p_pte, ptw_read_tag type)]
    let pg_base := PGBASE pte.ppn
    if !pte.v || (!pte.r && pte.w) then ⟨.structural, level, pte, p_pte, pg_base, reads⟩
    else if pte.r || pte.x then ⟨.leaf, level, pte, p_pte, pg_base, reads⟩
    else
      match level with
      | 0 => ⟨.underflow, 0, pte, p_pte, pg_base, reads⟩
      | l + 1 => walk s vaddr type l pg_base reads

/-- The `bad:` exit of `ptw`: `check_permission(&pte, false, vaddr, type); return MEM_RET_FAIL`. -/
def ptw_bad (cfg : Config) (s : State) (pte : PTE) (vaddr type : Nat) : Res Nat :=
  match check_permission cfg s pte false vaddr type with
  | .ret _ s1 => .ret MEM_RET_FAIL s1
  | .raise ex s1 => .raise ex s1
  | .abort => .abort

/-- The hardware accessed/dirty update of `ptw` (`#ifndef CONFIG_SHARE`). -/
def ptw_update_ad (s : State) (pte : PTE) (p_pte type : Nat) : State :=
  let is_write := type == MEM_TYPE_WRITE
  if !pte.a || (!pte.d && is_write) then
    let val := pte.val ||| 0x40
    let val := if is_write then val ||| 0x80 else val
    paddr_write s p_pte val
  else s

/-- Function `ptw(vaddr, type)`.  `pte0` is the content of the uninitialised local `pte`,
which is what the `bad:` exit sees when the address is not canonical. -/
def ptw (cfg : Config) (s : State) (pte0 : PTE) (vaddr type : Nat) : Res Nat :=
  let pg_base := PGBASE (s.satp_ppn % 2 ^ 44)
  if sext39 vaddr ≠ vaddr then ptw_bad cfg s pte0 vaddr type
  else
    let wr := walk s vaddr type (PTW_LEVEL - 1) pg_base []
    match wr.exit with
    | .structural => ptw_bad cfg s wr.pte vaddr type
    | .underflow => ptw_bad cfg s wr.pte vaddr type
    | .leaf =>
      match check_permission cfg s wr.pte true vaddr type with
      | .abort => .abort
      | .raise ex s1 => .raise ex s1
      | .ret false s1 => .ret MEM_RET_FAIL s1
      | .ret true s1 =>
        let pg_mask := (1 <<< VPNiSHFT wr.level) - 1
        if 0 < wr.level ∧ (wr.pg_base &&& pg_mask) ≠ 0 then ptw_bad cfg s1 wr.pte vaddr type
        else
          let pg_base :=
            if 0 < wr.level then
              (wr.pg_base &&& not64 pg_mask) ||| (vaddr &&& pg_mask &&& not64 PGMASK)
            else wr.pg_base
          let s2 := if cfg.share then s1 else ptw_update_ad s1 wr.pte wr.p_pte type
          .ret (pg_base ||| MEM_RET_OK) s2

/-- Function `isa_mmu_check(vaddr, len, type)`. -/
def isa_mmu_check (cfg : Config) (s : State) (vaddr len type : Nat) : Res Nat :=
  let is_ifetch := type == MEM_TYPE_IFETCH
  let vm_enable := decide (eff_mode s is_ifetch < MODE_M) && s.satp_mode == 8
  let va_mask := (1 <<< (63 - 38 + 1)) - 1
  let va_msbs := vaddr >>> 38
  let va_msbs_ok := (va_msbs == va_mask) || va_msbs == 0 || !vm_enable
  if !va_msbs_ok then
    if is_ifetch then
      .raise EX_IPF (set_tval { s with stval := vaddr } EX_IPF vaddr)
    else if type == MEM_TYPE_READ then
      let ex := if s.amo then EX_SPF else EX_LPF
      .raise ex (set_tval s ex vaddr)
    else
      .raise EX_SPF (set_tval s EX_SPF vaddr)
  else if is_ifetch then
    .ret (if s.ifetch_mmu_state ≠ 0 then MMU_TRANSLATE else MMU_DIRECT) s
  else if cfg.ac_soft && (vaddr &&& ((len + WORD - 1) % WORD)) != 0 then
    let ex := if s.amo || type == MEM_TYPE_WRITE then EX_SAM else EX_LAM
    .raise ex (set_tval s ex vaddr)
  else
    .ret (if s.data_mmu_state ≠ 0 then MMU_TRANSLATE else MMU_DIRECT) s

/-- The page fault the spec assigns to an access class: instruction-page-fault for a fetch,
load-page-fault for a load (store-page-fault when the atomic flag is set), store-page-fault
otherwise. -/
def class_page_fault (s : State) (type : Nat) : Nat :=
  if type = MEM_TYPE_IFETCH then EX_IPF
  else if type = MEM_TYPE_READ then (if s.amo then EX_SPF else EX_LPF)
  else EX_SPF

/-! ## The walk path, in the words of the spec -/

/-- Base of the table consulted at depth `k` of the walk (level `2 - k`): the root table
derived from `satp->ppn` at depth 0, then the table named by the entry read one level up. -/
def table_base (s : State) (vaddr : Nat) : Nat → Nat
  | 0 => PGBASE (s.satp_ppn % 2 ^ 44)
  | k + 1 =>
    PGBASE (PTE.ppn ⟨paddr_read s (table_base s vaddr k + VPNi vaddr (2 - k) * PTE_SIZE)⟩)

/-- Address of the entry for `vaddr` at level `L`: `table_base + VPN[L] * 8`. -/
def pte_addr (s : State) (vaddr L : Nat) : Nat :=
  table_base s vaddr (2 - L) + VPNi vaddr L * PTE_SIZE

/-- The entry for `vaddr` at level `L`. -/
def pte_at (s : State) (vaddr L : Nat) : PTE := ⟨paddr_read s (pte_addr s vaddr L)⟩

/-- A structurally faulty entry: valid clear, or writable set with readable clear. -/
def pte_malformed (p : PTE) : Bool := !p.v || (p.w && !p.r)

/-- A leaf entry: readable or executable. -/
def pte_is_leaf (p : PTE) : Bool := p.r || p.x

/-- A pointer (non-leaf) entry: well formed and neither readable nor executable. -/
def pte_is_pointer (p : PTE) : Bool := !pte_malformed p && !pte_is_leaf p

/-- The walk for `vaddr` gets as far as reading the entry at level `L`: every entry above
level `L` is a pointer. -/
def walk_reaches (s : State) (vaddr L : Nat) : Prop :=
  ∀ L1, L1 < 3 → L < L1 → pte_is_pointer (pte_at s vaddr L1) = true

instance (s : State) (vaddr L : Nat) : Decidable (walk_reaches s vaddr L) := by
  unfold walk_reaches
  infer_instance

/-- The page-table reads the spec expects of a walk that stops at level `L`: one per level
from 2 down to `L`, each at `table_base + VPN[level] * 8`. -/
def expected_reads (s : State) (vaddr type L : Nat) : List (Nat × Nat) :=
  (List.range (3 - L)).map
    (fun k => (table_base s vaddr k + VPNi vaddr (2 - k) * PTE_SIZE, ptw_read_tag type))

/-! ## Physical memory protection (`CONFIG_RV_PMP_CHECK`) -/

/-- Modelled from the spec: read-permission bit of a PMP configuration byte. -/
def PMP_R : Nat := 0x01
/-- Modelled from the spec: write-permission bit of a PMP configuration byte. -/
def PMP_W : Nat := 0x02
/-- Modelled from the spec: execute-permission bit of a PMP configuration byte. -/
def PMP_X : Nat := 0x04
/-- Modelled from the spec: address-matching mode field of a PMP configuration byte. -/
def PMP_A : Nat := 0x18
/-- Modelled from the spec: lock bit of a PMP configuration byte. -/
def PMP_L : Nat := 0x80
/-- Modelled from the spec: address-matching mode "top of range". -/
def PMP_TOR : Nat := 0x08
/-- Modelled from the spec: address-matching mode "naturally aligned 4-byte". -/
def PMP_NA4 : Nat := 0x10
/-- Modelled from the spec: address-matching mode "naturally aligned power of two". -/
def PMP_NAPOT : Nat := 0x18
/-- Modelled from the spec: the address registers hold byte addresses shifted right by 2. -/
def PMP_SHIFT : Nat := 2

/-- The PMP registers and build constants read by `isa_pmp_check_permission`. -/
structure PmpRegs where
  /-- Constant `CONFIG_RV_PMP_NUM`. -/
  num : Nat
  /-- Result of `pmpaddr_from_index(i)`. -/
  pmpaddr : Nat → Nat
  /-- Result of `pmpcfg_from_index(i)`. -/
  pmpcfg : Nat → Nat
  /-- Result of `pmp_tor_mask()`. -/
  tor_mask : Nat

/-- Local `pmpaddr` of iteration `i`. -/
def pmp_addr (P : PmpRegs) (i : Nat) : Nat := P.pmpaddr i % WORD

/-- Local `cfg` of iteration `i` (a `uint8_t`). -/
def pmp_cfg (P : PmpRegs) (i : Nat) : Nat := P.pmpcfg i % 256

/-- Local `tor` of iteration `i`: `(pmpaddr & pmp_tor_mask()) << PMP_SHIFT`. -/
def pmp_tor (P : PmpRegs) (i : Nat) : Nat := ((pmp_addr P i &&& P.tor_mask) <<< PMP_SHIFT) % WORD

/-- Local `mask` of iteration `i`, after both assignments. -/
def pmp_mask (P : PmpRegs) (i : Nat) : Nat :=
  let is_na4 := (pmp_cfg P i &&& PMP_A) == PMP_NA4
  let mask := ((pmp_addr P i <<< 1) % WORD) ||| (if is_na4 then 0 else 1) ||| not64 P.tor_mask
  (not64 (mask &&& not64 (mask + 1)) <<< PMP_SHIFT) % WORD

/-- Local `match` of the sector loop for the sector at `cur_addr`. -/
def pmp_match (P : PmpRegs) (i base cur_addr : Nat) : Bool :=
  let is_tor := (pmp_cfg P i &&& PMP_A) == PMP_TOR
  let napot_match := ((cur_addr ^^^ pmp_tor P i) &&& pmp_mask P i) == 0
  let tor_match := decide (base ≤ cur_addr) && decide (cur_addr < pmp_tor P i)
  if is_tor then tor_match else napot_match

/-- The values taken by `offset` in
`for (offset = 0; offset < len; offset += 1 << PMP_SHIFT)`. -/
def pmp_offsets (len : Nat) : List Nat :=
  (List.range ((len + (1 <<< PMP_SHIFT) - 1) / (1 <<< PMP_SHIFT))).map (fun k => k * (1 <<< PMP_SHIFT))

/-- Local `any_match` after the sector loop. -/
def pmp_any_match (P : PmpRegs) (addr len i base : Nat) : Bool :=
  (pmp_offsets len).any (fun offset => pmp_match P i base ((addr + offset) % WORD))

/-- Local `all_match` after the sector loop. -/
def pmp_all_match (P : PmpRegs) (addr len i base : Nat) : Bool :=
  (pmp_offsets len).all (fun offset => pmp_match P i base ((addr + offset) % WORD))

/-- The permission expression returned for a fully matching entry. -/
def pmp_perm (cfg type mode : Nat) : Bool :=
  (mode == MODE_M && (cfg &&& PMP_L) == 0) ||
  ((type == MEM_TYPE_READ || type == MEM_TYPE_IFETCH_READ || type == MEM_TYPE_WRITE_READ) &&
    (cfg &&& PMP_R) != 0) ||
  (type == MEM_TYPE_WRITE && (cfg &&& PMP_W) != 0) ||
  (type == MEM_TYPE_IFETCH && (cfg &&& PMP_X) != 0)

/-- Body of iteration `i` of the entry loop, entered with lower bound `base`: `some r` when
the function returns `r` in this iteration, `none` when the loop goes on. -/
def pmp_entry (P : PmpRegs) (addr len type mode i base : Nat) : Option Bool :=
  if (pmp_cfg P i &&& PMP_A) != 0 then
    if pmp_any_match P addr len i base then
      if !pmp_all_match P addr len i base then some false
      else some (pmp_perm (pmp_cfg P i) type mode)
    else none
  else none

/-- The loop `for (i = 0; i < CONFIG_RV_PMP_NUM; i++)` with `n` iterations left, at index `i`
with lower bound `base`, followed by `return mode == MODE_M`. -/
def pmp_loop (P : PmpRegs) (addr len type mode : Nat) : Nat → Nat → Nat → Bool
  | 0, _, _ => mode == MODE_M
  | n + 1, i, base =>
    match pmp_entry P addr len type mode i base with
    | some r => r
    | none => pmp_loop P addr len type mode n (i + 1) (pmp_tor P i)

/-- Local `mode` of `isa_pmp_check_permission`. -/
def pmp_eff_mode (s : State) (type out_mode : Nat) : Nat :=
  let ifetch := type == MEM_TYPE_IFETCH
  if out_mode == MODE_M then (if s.mprv && !ifetch then s.mpp else s.mode) else out_mode

/-- Function `isa_pmp_check_permission(addr, len, type, out_mode)` with
`CONFIG_RV_PMP_CHECK` defined. -/
def isa_pmp_check_permission (P : PmpRegs) (s : State) (addr len type out_mode : Nat) : Bool :=
  let mode := pmp_eff_mode s type out_mode
  if P.num == 0 then true
  else pmp_loop P addr len type mode P.num 0 0

/-- Lower bound `base` with which iteration `i` is entered: zero for entry 0, otherwise the
`tor` of entry `i - 1`. -/
def pmp_base (P : PmpRegs) : Nat → Nat
  | 0 => 0
  | i + 1 => pmp_tor P i

/-- Entry `i` is configured and matches at least one 4-byte sector of the access. -/
def pmp_hits (P : PmpRegs) (addr len i : Nat) : Bool :=
  (pmp_cfg P i &&& PMP_A) != 0 && pmp_any_match P addr len i (pmp_base P i)

/-! ## Supervisor memory protection (`CONFIG_RV_SPMP_CHECK`) -/

/-- Modelled from the spec: the SPMP address registers hold byte addresses shifted by 2. -/
def SPMP_SHIFT : Nat := 2
/-- Modelled from the spec: SPMP address-matching mode "top of range". -/
def SPMP_TOR : Nat := 0x08
/-- Modelled from the spec: SPMP address-matching mode "naturally aligned 4-byte". -/
def SPMP_NA4 : Nat := 0x10
/-- Modelled from the spec: SPMP address-matching mode "naturally aligned power of two". -/
def SPMP_NAPOT : Nat := 0x18
/-- Modelled from the spec: read bit of an SPMP configuration byte. -/
def SPMP_R : Nat := 0x01
/-- Modelled from the spec: write bit of an SPMP configuration byte. -/
def SPMP_W : Nat := 0x02
/-- Modelled from the spec: execute bit of an SPMP configuration byte. -/
def SPMP_X : Nat := 0x04
/-- Modelled from the spec: supervisor bit of an SPMP configuration byte. -/
def SPMP_S : Nat := 0x80

/-- Function `napot_decode(addr, spmp_addr)`. -/
def napot_decode (addr spmp_addr : Nat) : Bool :=
  let spmp_addr_start := ((spmp_addr &&& ((spmp_addr + 1) % WORD)) <<< SPMP_SHIFT) % WORD
  let spmp_addr_end := ((spmp_addr ||| ((spmp_addr + 1) % WORD)) <<< SPMP_SHIFT) % WORD
  decide (spmp_addr_start ≤ addr) && decide (addr < spmp_addr_end)

/-- Function `address_matching(base, addr, len, spmp_addr, addr_mode)`. -/
def address_matching (base addr len spmp_addr addr_mode : Nat) : Nat :=
  let addr_s := addr
  let addr_e := (addr + len) % WORD
  if addr_mode == SPMP_TOR then
    let spmp_addr := (spmp_addr <<< SPMP_SHIFT) % WORD
    let s_flag := if base ≤ addr_s ∧ addr_s < spmp_addr then 1 else 0
    let e_flag := if base ≤ addr_e ∧ addr_e < spmp_addr then 1 else 0
    (s_flag + e_flag) % 256
  else if addr_mode == SPMP_NA4 then
    let spmp_addr := (spmp_addr <<< SPMP_SHIFT) % WORD
    let s_flag :=
      if spmp_addr ≤ addr_s ∧ addr_s < (spmp_addr + (1 <<< SPMP_SHIFT)) % WORD then 1 else 0
    let e_flag :=
      if spmp_addr ≤ addr_e ∧ addr_e < (spmp_addr + (1 <<< SPMP_SHIFT)) % WORD then 1 else 0
    (s_flag + e_flag) % 256
  else if addr_mode == SPMP_NAPOT then
    let s_flag := if napot_decode addr_s spmp_addr then 1 else 0
    let e_flag := if napot_decode addr_e spmp_addr then 1 else 0
    (s_flag + e_flag) % 256
  else 0

/-- Function `spmp_internal_check_permission(spmp_cfg, type, out_mode)`. -/
def spmp_internal_check_permission (s : State) (spmp_cfg type out_mode : Nat) : Bool :=
  let spmp_permission :=
    (((spmp_cfg &&& SPMP_S) >>> 4) ||| ((spmp_cfg &&& SPMP_R) <<< 2) ||| (spmp_cfg &&& SPMP_W) |||
      ((spmp_cfg &&& SPMP_X) >>> 2)) % 256
  let permission_ret : Nat :=
    if out_mode == MODE_S then
      if !s.sum then
        match spmp_permission with
        | 0b0010 => 0b110
        | 0b0011 => 0b110
        | 0b1001 => 0b001
        | 0b1010 => 0b001
        | 0b1000 => 0b111
        | 0b1011 => 0b101
        | 0b1100 => 0b100
        | 0b1101 => 0b101
        | 0b1110 => 0b110
        | 0b1111 => 0b100
        | _ => 0b000
      else
        match spmp_permission with
        | 0b0010 => 0b110
        | 0b0011 => 0b110
        | 0b0100 => 0b100
        | 0b0101 => 0b100
        | 0b0110 => 0b110
        | 0b0111 => 0b110
        | 0b1001 => 0b001
        | 0b1010 => 0b001
        | 0b1011 => 0b101
        | 0b1000 => 0b111
        | 0b1100 => 0b100
        | 0b1101 => 0b101
        | 0b1110 => 0b110
        | 0b1111 => 0b100
        | _ => 0b000
    else if out_mode == MODE_U then
      match spmp_permission with
      | 0b0001 => 0b001
      | 0b0010 => 0b100
      | 0b0011 => 0b110
      | 0b0100 => 0b100
      | 0b0101 => 0b101
      | 0b0110 => 0b110
      | 0b1000 => 0b111
      | 0b0111 => 0b111
      | 0b1010 => 0b001
      | 0b1011 => 0b001
      | 0b1111 => 0b100
      | _ => 0b000
    else 0b111
  if type == MEM_TYPE_IFETCH then (permission_ret ||| 0b001) == permission_ret
  else if type == MEM_TYPE_READ || type == MEM_TYPE_IFETCH_READ || type == MEM_TYPE_WRITE_READ then
    (permission_ret ||| 0b100) == permission_ret
  else if type == MEM_TYPE_WRITE then (permission_ret ||| 0b010) == permission_ret
  else false

/-- The SPMP registers and build constants read by `isa_spmp_check_permission`. -/
structure SpmpRegs where
  /-- Constant `CONFIG_RV_SPMP_NUM`. -/
  num : Nat
  /-- Result of `spmpaddr_from_index(i)`. -/
  spmpaddr : Nat → Nat
  /-- Result of `spmpcfg_from_index(i)`. -/
  spmpcfg : Nat → Nat

/-- Local `addr_mode` of iteration `i`: `spmp_cfg & PMP_A`. -/
def spmp_addr_mode (R : SpmpRegs) (i : Nat) : Nat := (R.spmpcfg i % 256) &&& PMP_A

/-- The loop `for (i = 0; i < CONFIG_RV_SPMP_NUM; i++)` of `isa_spmp_check_permission` with
`n` iterations left, at index `i` with lower bound `base`, followed by the no-match return.
The `continue` of a configured entry that does not match skips `base = spmp_addr << SPMP_SHIFT`. -/
def spmp_loop (R : SpmpRegs) (s : State) (addr len type out_mode : Nat) : Nat → Nat → Nat → Bool
  | 0, _, _ => if out_mode == MODE_U then true else true
  | n + 1, i, base =>
    let spmp_addr := R.spmpaddr i % WORD
    let spmp_cfg := R.spmpcfg i % 256
    let addr_mode := spmp_addr_mode R i
    if addr_mode != 0 then
      let matching_result := address_matching base addr len spmp_addr addr_mode
      if matching_result == 1 then false
      else if matching_result == 0 then spmp_loop R s addr len type out_mode n (i + 1) base
      else spmp_internal_check_permission s spmp_cfg type out_mode
    else spmp_loop R s addr len type out_mode n (i + 1) ((spmp_addr <<< SPMP_SHIFT) % WORD)

/-- Function `isa_spmp_check_permission(addr, len, type, out_mode)` with
`CONFIG_RV_SPMP_CHECK` defined. -/
def isa_spmp_check_permission (R : SpmpRegs) (s : State) (addr len type out_mode : Nat) : Bool :=
  spmp_loop R s addr len type out_mode R.num 0 0

/-- Function `update_mmu_state_internal(ifetch)`; `none` when its `assert` fails. -/
def update_mmu_state_internal (s : State) (ifetch : Bool) : Option Nat :=
  let mode := eff_mode s ifetch
  if mode < MODE_M then
    if !(s.satp_mode == 0 || s.satp_mode == 8) then none
    else if s.satp_mode == 8 then some MMU_TRANSLATE
    else some MMU_DIRECT
  else some MMU_DIRECT

/-- Function `update_mmu_state()`. -/
def update_mmu_state (s : State) : Res Bool :=
  match update_mmu_state_internal s true with
  | none => .abort
  | some f =>
    let s1 := { s with ifetch_mmu_state := f }
    let data_mmu_state_old := s1.data_mmu_state
    match update_mmu_state_internal s1 false with
    | none => .abort
    | some d =>
      let s2 := { s1 with data_mmu_state := d }
      .ret (if (s2.data_mmu_state ^^^ data_mmu_state_old) ≠ 0 then true else false) s2

/-! ## The permission rules, in the words of the spec -/

/-- The privilege rules: a user-mode access needs the user bit; a supervisor-mode access to a
user page needs the SUM control and is never allowed for a fetch. -/
def priv_ok (s : State) (pte : PTE) (type : Nat) : Bool :=
  let mode := eff_mode s (type == MEM_TYPE_IFETCH)
  !(mode == MODE_U && !pte.u) &&
    !(pte.u && mode == MODE_S && (!s.sum || type == MEM_TYPE_IFETCH))

/-- The capability rules: a fetch needs executable; a load needs readable, or executable with
the MXR control set; a store or atomic needs writable. -/
def cap_ok (s : State) (pte : PTE) (type : Nat) : Bool :=
  if type = MEM_TYPE_IFETCH then pte.x
  else if type = MEM_TYPE_READ then pte.r || (s.mxr && pte.x)
  else pte.w

/-- The accessed/dirty fault of the exception-based policy: accessed clear, or dirty clear on
a store. -/
def ad_fault (cfg : Config) (pte : PTE) (type : Nat) : Bool :=
  cfg.share &&
    (if type = MEM_TYPE_IFETCH ∨ type = MEM_TYPE_READ then !pte.a else (!pte.a || !pte.d))

/-! ## Fault injector (`force_raise_pf`) -/

/-- The fields of `cpu` that guide lock-step execution and are read by `force_raise_pf`. -/
structure Guide where
  /-- Field `cpu.guided_exec`. -/
  guided_exec : Bool
  /-- Field `cpu.execution_guide.force_raise_exception`. -/
  force_raise_exception : Bool
  /-- Field `cpu.execution_guide.exception_num`. -/
  exception_num : Nat
  /-- Field `cpu.execution_guide.mtval`. -/
  mtval : Nat
  /-- Field `cpu.execution_guide.stval`. -/
  stval : Nat

/-- The function-static arrays of `force_raise_pf_record`, indexed by access class (cells 0, 1
and 2). -/
structure PfRecord where
  /-- Array `last_addr[3]`. -/
  last_addr : Nat → Nat
  /-- Array `force_count[3]`; each cell is an `int`, kept as its 32-bit pattern. -/
  force_count : Nat → Nat

/-- The arrays as initialised: `last_addr = {0}`, `force_count = {0}`. -/
def PfRecord.init : PfRecord := { last_addr := fun _ => 0, force_count := fun _ => 0 }

/-- Function `force_raise_pf_record(vaddr, type)`: the returned flag and the arrays after the
call. The increment of the `int` counter is taken modulo `2 ^ 32`. -/
def force_raise_pf_record (r : PfRecord) (vaddr type : Nat) : Bool × PfRecord :=
  let r1 : PfRecord :=
    if vaddr ≠ r.last_addr type then
      { last_addr := fun t => if t = type then vaddr else r.last_addr t,
        force_count := fun t => if t = type then 0 else r.force_count t }
    else r
  let r2 : PfRecord :=
    { r1 with force_count := fun t => if t = type then (r1.force_count type + 1) % 2 ^ 32
                                       else r1.force_count t }
  (r2.force_count type == 5, r2)

/-- Outcome of `force_raise_pf`: a normal return or a `longjmp_exception`, with the recorder
arrays and the machine state after the call. -/
inductive PfRes where
  /-- Normal return of the given value. -/
  | ret : Nat → PfRecord → State → PfRes
  /-- The call left through `longjmp_exception(ex)`. -/
  | raise : Nat → PfRecord → State → PfRes

/-- Function `force_raise_pf(vaddr, type)`; the `printf` warnings are not modelled. -/
def force_raise_pf (g : Guide) (r : PfRecord) (s : State) (vaddr type : Nat) : PfRes :=
  let ifetch := type == MEM_TYPE_IFETCH
  if g.guided_exec && g.force_raise_exception then
    if ifetch && g.exception_num == EX_IPF then
      let rec1 := force_raise_pf_record r vaddr type
      if rec1.1 then .ret MEM_RET_OK rec1.2 s
      else if !s.deleg_S EX_IPF then .raise EX_IPF rec1.2 { s with mtval := g.mtval }
      else .raise EX_IPF rec1.2 { s with stval := g.stval }
    else if !ifetch && type == MEM_TYPE_READ && g.exception_num == EX_LPF then
      let rec1 := force_raise_pf_record r vaddr type
      if rec1.1 then .ret MEM_RET_OK rec1.2 s
      else .raise EX_LPF rec1.2 (set_tval s EX_LPF vaddr)
    else if type == MEM_TYPE_WRITE && g.exception_num == EX_SPF then
      let rec1 := force_raise_pf_record r vaddr type
      if rec1.1 then .ret MEM_RET_OK rec1.2 s
      else .raise EX_SPF rec1.2 (set_tval s EX_SPF vaddr)
    else .ret MEM_RET_OK r s
  else .ret MEM_RET_OK r s

/-- The recorder arrays after a sequence of `force_raise_pf_record` calls, each given as
`(vaddr, type)`, oldest first. -/
def record_all (r : PfRecord) : List (Nat × Nat) → PfRecord
  | [] => r
  | q :: qs => record_all (force_raise_pf_record r q.1 q.2).2 qs

/-- The number of requests of class `type` in a sequence. -/
def count_class (type : Nat) (qs : List (Nat × Nat)) : Nat :=
  (qs.filter (fun q => q.2 == type)).length

/-- A run of class `type` at `vaddr` starts in `r`: the last recorded address of the class
differs (so the next request resets the count), or nothing has been counted yet. -/
def run_starts (r : PfRecord) (vaddr type : Nat) : Prop :=
  r.last_addr type ≠ vaddr ∨ r.force_count type = 0

/-! ## Concrete machines used to instantiate the theorems -/

/-- Hardware-managed accessed/dirty policy, no software alignment check. -/
def cfg_hw : Config := { share := false, ac_soft := false }

/-- Exception-based accessed/dirty policy (`CONFIG_SHARE`). -/
def cfg_share : Config := { share := true, ac_soft := false }

/-- A user-mode machine state with Sv39 enabled, root table at physical page `0x1000` and
backing store `mem`. -/
def demo_state (mem : Nat → Nat) : State :=
  { mode := MODE_U, amo := false, mprv := false, mpp := 0, sum := false, mxr := false,
    satp_mode := 8, satp_ppn := 0x1000, stval := 0, mtval := 0, deleg_S := fun _ => false,
    mem := mem, ifetch_mmu_state := MMU_TRANSLATE, data_mmu_state := MMU_TRANSLATE }

/-- A three-level table mapping virtual page 0: pointers at levels 2 and 1, and at level 0
(address `0x1002000`) the entry `leaf`. -/
def demo_mem (leaf : Nat) : Nat → Nat := fun a =>
  if a = 0x1000000 then (0x1001 <<< 10) ||| 0x01
  else if a = 0x1001000 then (0x1002 <<< 10) ||| 0x01
  else if a = 0x1002000 then leaf
  else 0

/-- A table whose level-2 entry points to a table whose level-1 entry for virtual page 0 is
`e1`. -/
def demo_mem1 (e1 : Nat) : Nat → Nat := fun a =>
  if a = 0x1000000 then (0x1001 <<< 10) ||| 0x01
  else if a = 0x1001000 then e1
  else 0

/-- A table whose level-2 entry is a pointer with page number `0x100001001`, which has bit 32
set: `PGBASE` of it is `0x1001000`, where the level-1 entry for virtual page 0 is `e1`; `far`
is the content of address `0x100001001000`, the 56-bit value of `0x100001001 << 12`. -/
def demo_mem_hi (e1 far : Nat) : Nat → Nat := fun a =>
  if a = 0x1000000 then (0x100001001 <<< 10) ||| 0x01
  else if a = 0x1001000 then e1
  else if a = 0x100001001000 then far
  else 0

/-- Sixteen PMP entries at 4-byte granularity, all off except entry 0, which has address
register `0x200001ff` (NAPOT block `[0x80000000, 0x80001000)`) and configuration `cfg0`. -/
def demo_pmp_napot (cfg0 : Nat) : PmpRegs :=
  { num := 16, pmpaddr := fun i => if i = 0 then 0x200001ff else 0,
    pmpcfg := fun i => if i = 0 then cfg0 else 0, tor_mask := WORD - 1 }

/-- Sixteen PMP entries at 4-byte granularity: entry 0 is the TOR region `[0, 0x1000)` with
configuration `cfg0`, entry 1 has address register `a1` and configuration `cfg1`, the rest
are off. -/
def demo_pmp_two (cfg0 a1 cfg1 : Nat) : PmpRegs :=
  { num := 16, pmpaddr := fun i => if i = 0 then 0x400 else if i = 1 then a1 else 0,
    pmpcfg := fun i => if i = 0 then cfg0 else if i = 1 then cfg1 else 0,
    tor_mask := WORD - 1 }

/-- Sixteen SPMP entries, all off except entry 0, which has address register `0x400` and
configuration `cfg0`. -/
def demo_spmp (cfg0 : Nat) : SpmpRegs :=
  { num := 16, spmpaddr := fun i => if i = 0 then 0x400 else 0,
    spmpcfg := fun i => if i = 0 then cfg0 else 0 }

/-- Sixteen SPMP entries, all off except entries 0 and 1. -/
def demo_spmp_two (a0 cfg0 a1 cfg1 : Nat) : SpmpRegs :=
  { num := 16, spmpaddr := fun i => if i = 0 then a0 else if i = 1 then a1 else 0,
    spmpcfg := fun i => if i = 0 then cfg0 else if i = 1 then cfg1 else 0 }

/-! ## Theorems -/

theorem VPNi_lt (va i : Nat) : VPNi va i < 512 := by
  unfold VPNi VPNMASK
  exact Nat.lt_of_le_of_lt Nat.and_le_right (by decide)

theorem PGBASE_lt (n : Nat) : PGBASE n < 2 ^ 44 := by
  unfold PGBASE
  exact Nat.mod_lt _ (by positivity)

theorem PGBASE_ppn_lt (p : PTE) : PGBASE p.ppn < 2 ^ 56 := by
  have h := PGBASE_lt p.ppn
  omega

theorem PGBASE_mod_lt (n : Nat) : PGBASE (n % 2 ^ 44) < 2 ^ 56 := by
  have h := PGBASE_lt (n % 2 ^ 44)
  omega

theorem table_base_lt (s : State) (vaddr k : Nat) : table_base s vaddr k < 2 ^ 56 := by
  cases k with
  | zero => exact PGBASE_mod_lt _
  | succ k => exact PGBASE_ppn_lt _

theorem pte_addr_lt (s : State) (vaddr L : Nat) : pte_addr s vaddr L < WORD := by
  have h1 := table_base_lt s vaddr (2 - L)
  have h2 := VPNi_lt vaddr L
  unfold pte_addr PTE_SIZE WORD
  omega

theorem walk_step_mod (b va i : Nat) (hb : b < 2 ^ 56) :
    (b + VPNi va i * PTE_SIZE) % WORD = b + VPNi va i * PTE_SIZE := by
  have h2 := VPNi_lt va i
  apply Nat.mod_eq_of_lt
  unfold PTE_SIZE WORD
  omega


theorem walk_unfold (s : State) (vaddr type level pg_base : Nat) (reads : List (Nat × Nat)) :
    walk s vaddr type level pg_base reads =
      (let p_pte := (pg_base + VPNi vaddr level * PTE_SIZE) % WORD
       let pte : PTE := ⟨paddr_read s p_pte⟩
       let reads := reads ++ [(p_pte, ptw_read_tag type)]
       let pg_base := PGBASE pte.ppn
       if !pte.v || (!pte.r && pte.w) then ⟨.structural, level, pte, p_pte, pg_base, reads⟩
       else if pte.r || pte.x then ⟨.leaf, level, pte, p_pte, pg_base, reads⟩
       else
         match level with
         | 0 => ⟨.underflow, 0, pte, p_pte, pg_base, reads⟩
         | l + 1 => walk s vaddr type l pg_base reads) := by
  cases level <;> rfl

/-- One iteration of the loop at level `L`, entered with the table base of that level. -/
theorem walk_at (s : State) (vaddr type L : Nat) (hL : L ≤ 2) (reads : List (Nat × Nat)) :
    walk s vaddr type L (table_base s vaddr (2 - L)) reads =
      (let pte := pte_at s vaddr L
       let reads1 := reads ++ [(pte_addr s vaddr L, ptw_read_tag type)]
       if pte_malformed pte then
         ⟨.structural, L, pte, pte_addr s vaddr L, PGBASE pte.ppn, reads1⟩
       else if pte_is_leaf pte then
         ⟨.leaf, L, pte, pte_addr s vaddr L, PGBASE pte.ppn, reads1⟩
       else
         match L with
         | 0 => ⟨.underflow, 0, pte, pte_addr s vaddr L, PGBASE pte.ppn, reads1⟩
         | l + 1 => walk s vaddr type l (table_base s vaddr (2 - l)) reads1) := by
  rw [walk_unfold]
  have hm := walk_step_mod (table_base s vaddr (2 - L)) vaddr L (table_base_lt _ _ _)
  simp only [hm]
  have hb : ∀ p : PTE, (!p.v || (!p.r && p.w)) = pte_malformed p := by
    intro p; unfold pte_malformed; cases p.v <;> cases p.r <;> cases p.w <;> rfl
  simp only [hb]
  show (if pte_malformed (pte_at s vaddr L) = true then _ else _) = _
  simp only [pte_at, pte_addr, pte_is_leaf]
  split
  · rfl
  · split
    · rfl
    · match L, hL with
      | 0, _ => rfl
      | 1, _ => rfl
      | 2, _ => rfl

theorem tval_reg_set_tval (s : State) (ex v : Nat) : tval_reg (set_tval s ex v) ex = v := by
  unfold tval_reg set_tval
  cases h : s.deleg_S ex <;> simp [h]

theorem tval_reg_set_tval_amo (s : State) (ex v : Nat) (b : Bool) :
    tval_reg { set_tval s ex v with amo := b } ex = v := by
  unfold tval_reg set_tval
  cases h : s.deleg_S ex <;> simp [h]

theorem tval_reg_set_tval_stval (s : State) (ex v w : Nat) :
    tval_reg (set_tval { s with stval := w } ex v) ex = v := by
  unfold tval_reg set_tval
  cases h : s.deleg_S ex <;> simp [h]

theorem check_permission_false_not_ret (cfg : Config) (s : State) (pte : PTE)
    (vaddr type : Nat) (b : Bool) (s1 : State) :
    check_permission cfg s pte false vaddr type ≠ .ret b s1 := by
  unfold check_permission
  simp only [Bool.false_and, Bool.not_false, Bool.true_or, if_true]
  split
  · simp
  · split
    · split <;> simp
    · split <;> simp

theorem check_permission_false_raise (cfg : Config) (s : State) (pte : PTE)
    (vaddr type : Nat)
    (hm : eff_mode s (type == MEM_TYPE_IFETCH) = MODE_U ∨
      eff_mode s (type == MEM_TYPE_IFETCH) = MODE_S)
    (hamo : ¬ (type = MEM_TYPE_IFETCH ∧ s.amo = true)) :
    ∃ s1, check_permission cfg s pte false vaddr type = .raise (class_page_fault s type) s1 ∧
      tval_reg s1 (class_page_fault s type) = vaddr := by
  have hm1 : (!(eff_mode s (type == MEM_TYPE_IFETCH) == MODE_U ||
      eff_mode s (type == MEM_TYPE_IFETCH) == MODE_S)) = false := by
    rcases hm with h | h <;> simp [h]
  unfold check_permission class_page_fault
  simp only [hm1, Bool.false_and, Bool.not_false, Bool.true_or, if_true, Bool.false_eq_true,
    if_false]
  by_cases h1 : type = MEM_TYPE_IFETCH
  · have ha : s.amo = false := by
      cases h : s.amo
      · rfl
      · exact absurd ⟨h1, h⟩ hamo
    simp only [h1, beq_self_eq_true, if_true, ha, Bool.false_eq_true, if_false]
    exact ⟨_, rfl, tval_reg_set_tval _ _ _⟩
  · have h1b : (type == MEM_TYPE_IFETCH) = false := by simpa using h1
    simp only [h1b, h1, Bool.false_eq_true, if_false]
    by_cases h2 : type = MEM_TYPE_READ
    · simp only [h2, beq_self_eq_true, if_true]
      exact ⟨_, rfl, tval_reg_set_tval_amo _ _ _ _⟩
    · have h2b : (type == MEM_TYPE_READ) = false := by simpa using h2
      simp only [h2b, h2, Bool.false_eq_true, if_false]
      exact ⟨_, rfl, tval_reg_set_tval_amo _ _ _ _⟩

theorem ptw_bad_not_ret_ok (cfg : Config) (s : State) (pte : PTE) (vaddr type : Nat) :
    (∃ ex s1, ptw_bad cfg s pte vaddr type = .raise ex s1) ∨
      ptw_bad cfg s pte vaddr type = .abort := by
  unfold ptw_bad
  cases h : check_permission cfg s pte false vaddr type with
  | ret b s1 => exact absurd h (check_permission_false_not_ret _ _ _ _ _ _ _)
  | raise ex s1 => exact Or.inl ⟨ex, s1, rfl⟩
  | abort => exact Or.inr rfl

theorem ptw_bad_raise (cfg : Config) (s : State) (pte : PTE) (vaddr type : Nat)
    (hm : eff_mode s (type == MEM_TYPE_IFETCH) = MODE_U ∨
      eff_mode s (type == MEM_TYPE_IFETCH) = MODE_S)
    (hamo : ¬ (type = MEM_TYPE_IFETCH ∧ s.amo = true)) :
    ∃ s1, ptw_bad cfg s pte vaddr type = .raise (class_page_fault s type) s1 ∧
      tval_reg s1 (class_page_fault s type) = vaddr := by
  obtain ⟨s1, h1, h2⟩ := check_permission_false_raise cfg s pte vaddr type hm hamo
  exact ⟨s1, by unfold ptw_bad; rw [h1], h2⟩

theorem msbs_ok_imp (vaddr : Nat)
    (h : vaddr >>> 38 = (1 <<< (63 - 38 + 1)) - 1 ∨ vaddr >>> 38 = 0) :
    ∀ i, 39 ≤ i → i ≤ 63 → vaddr.testBit i = vaddr.testBit 38 := by
  intro i h1 h2
  have e1 : vaddr.testBit i = (vaddr >>> 38).testBit (i - 38) := by
    rw [Nat.testBit_shiftRight]; congr 1; omega
  have e2 : vaddr.testBit 38 = (vaddr >>> 38).testBit 0 := by
    rw [Nat.testBit_shiftRight]
  rw [e1, e2]
  rcases h with h | h
  · rw [h]
    have : (1 <<< (63 - 38 + 1)) - 1 = 2 ^ 26 - 1 := by decide
    rw [this, Nat.testBit_two_pow_sub_one, Nat.testBit_two_pow_sub_one]
    simp; omega
  · rw [h]; simp

/-- Claim C1. For every virtual address whose bits 63..39 are not all equal to bit 38 and
every access class, when translation is active for that class (effective mode below machine and
`satp->mode` equal to 8, Sv39), `isa_mmu_check` never returns normally: it leaves through
`longjmp_exception` with instruction-page-fault for a fetch, load-page-fault for a load
(store-page-fault when `cpu.amo` is set) and store-page-fault for a store, and the trap-value
register written for that fault holds exactly the input address. -/
theorem isa_mmu_check_noncanonical_faults (cfg : Config) (s : State) (vaddr len type : Nat)
    (hnc : ¬ ∀ i, 39 ≤ i → i ≤ 63 → vaddr.testBit i = vaddr.testBit 38)
    (hmode : eff_mode s (type == MEM_TYPE_IFETCH) < MODE_M)
    (hsatp : s.satp_mode = 8) :
    ∃ s1, isa_mmu_check cfg s vaddr len type = .raise (class_page_fault s type) s1 ∧
      tval_reg s1 (class_page_fault s type) = vaddr := by
  have h1 : (vaddr >>> 38 == (1 <<< (63 - 38 + 1)) - 1) = false := by
    rw [beq_eq_false_iff_ne]
    exact fun h => hnc (msbs_ok_imp vaddr (Or.inl h))
  have h2 : (vaddr >>> 38 == 0) = false := by
    rw [beq_eq_false_iff_ne]
    exact fun h => hnc (msbs_ok_imp vaddr (Or.inr h))
  have h3 : (s.satp_mode == 8) = true := by rw [hsatp]; rfl
  unfold isa_mmu_check class_page_fault
  simp only [hmode, h1, h2, h3, decide_True, Bool.and_self, Bool.not_true,
    Bool.or_false, beq_iff_eq, Bool.not_false, if_true]
  by_cases t1 : type = MEM_TYPE_IFETCH
  · simp only [t1, if_true]
    exact ⟨_, rfl, tval_reg_set_tval_stval _ _ _ _⟩
  · simp only [t1, if_false]
    by_cases t2 : type = MEM_TYPE_READ
    · simp only [t2, if_true]
      exact ⟨_, rfl, tval_reg_set_tval _ _ _⟩
    · simp only [t2, if_false]
      exact ⟨_, rfl, tval_reg_set_tval _ _ _⟩


theorem walk_eq (s : State) (vaddr type L : Nat) (hL : L ≤ 2) (hr : walk_reaches s vaddr L) :
    walk s vaddr type (PTW_LEVEL - 1) (PGBASE (s.satp_ppn % 2 ^ 44)) [] =
      (let pte := pte_at s vaddr L
       if pte_malformed pte then
         ⟨.structural, L, pte, pte_addr s vaddr L, PGBASE pte.ppn, expected_reads s vaddr type L⟩
       else if pte_is_leaf pte then
         ⟨.leaf, L, pte, pte_addr s vaddr L, PGBASE pte.ppn, expected_reads s vaddr type L⟩
       else
         match L with
         | 0 => ⟨.underflow, 0, pte, pte_addr s vaddr L, PGBASE pte.ppn,
                  expected_reads s vaddr type L⟩
         | l + 1 => walk s vaddr type l (table_base s vaddr (2 - l))
                  (expected_reads s vaddr type L)) := by
  have e0 : walk s vaddr type (PTW_LEVEL - 1) (PGBASE (s.satp_ppn % 2 ^ 44)) [] =
      walk s vaddr type 2 (table_base s vaddr (2 - 2)) [] := rfl
  have hp : ∀ L1, L1 < 3 → L < L1 →
      pte_malformed (pte_at s vaddr L1) = false ∧ pte_is_leaf (pte_at s vaddr L1) = false := by
    intro L1 h1 h2
    have := hr L1 h1 h2
    unfold pte_is_pointer at this
    revert this
    cases pte_malformed (pte_at s vaddr L1) <;> cases pte_is_leaf (pte_at s vaddr L1) <;> simp
  rw [e0]
  match L, hL with
  | 2, _ =>
    rw [walk_at s vaddr type 2 (le_refl _)]
    rfl
  | 1, _ =>
    rw [walk_at s vaddr type 2 (le_refl _)]
    obtain ⟨a, b⟩ := hp 2 (by decide) (by decide)
    simp only [a, b, Bool.false_eq_true, if_false]
    rw [walk_at s vaddr type 1 (by decide)]
    rfl
  | 0, _ =>
    rw [walk_at s vaddr type 2 (le_refl _)]
    obtain ⟨a, b⟩ := hp 2 (by decide) (by decide)
    simp only [a, b, Bool.false_eq_true, if_false]
    rw [walk_at s vaddr type 1 (by decide)]
    obtain ⟨a1, b1⟩ := hp 1 (by decide) (by decide)
    simp only [a1, b1, Bool.false_eq_true, if_false]
    rw [walk_at s vaddr type 0 (by decide)]
    rfl

/-- Every walk stops at some level it reaches, at an entry that is not a pointer unless the
level is 0. -/
theorem walk_stops (s : State) (vaddr : Nat) :
    ∃ L, L ≤ 2 ∧ walk_reaches s vaddr L ∧
      (pte_is_pointer (pte_at s vaddr L) = false ∨ L = 0) := by
  by_cases h2 : pte_is_pointer (pte_at s vaddr 2) = true
  · by_cases h1 : pte_is_pointer (pte_at s vaddr 1) = true
    · refine ⟨0, by decide, ?_, Or.inr rfl⟩
      intro L1 a b
      have : L1 = 1 ∨ L1 = 2 := by omega
      rcases this with e | e <;> subst e <;> assumption
    · refine ⟨1, by decide, ?_, Or.inl (by simpa using h1)⟩
      intro L1 a b
      have : L1 = 2 := by omega
      subst this; assumption
  · refine ⟨2, le_refl _, ?_, Or.inl (by simpa using h2)⟩
    intro L1 a b
    omega


theorem ptw_of_no_leaf (cfg : Config) (s : State) (pte0 : PTE) (vaddr type L : Nat)
    (hL : L ≤ 2) (hr : walk_reaches s vaddr L)
    (hbad : pte_malformed (pte_at s vaddr L) = true ∨
      (L = 0 ∧ pte_is_pointer (pte_at s vaddr 0) = true)) :
    ∃ P, ptw cfg s pte0 vaddr type = ptw_bad cfg s P vaddr type := by
  unfold ptw
  by_cases hc : sext39 vaddr = vaddr
  · simp only [hc, ne_eq, not_true_eq_false, if_false]
    rw [walk_eq s vaddr type L hL hr]
    rcases hbad with hb | ⟨h0, hb⟩
    · simp only [hb, if_true]
      exact ⟨_, rfl⟩
    · subst h0
      unfold pte_is_pointer at hb
      have a : pte_malformed (pte_at s vaddr 0) = false := by
        revert hb; cases pte_malformed (pte_at s vaddr 0) <;> simp
      have b : pte_is_leaf (pte_at s vaddr 0) = false := by
        revert hb; cases pte_is_leaf (pte_at s vaddr 0) <;> simp
      simp only [a, b, Bool.false_eq_true, if_false]
      exact ⟨_, rfl⟩
  · simp only [hc, ne_eq, not_false_eq_true, if_true]
    exact ⟨_, rfl⟩

/-- Claim C2. In `ptw`, if the entry read at some level `L` of the walk (every entry above `L`
being a pointer) has valid clear, or has writable set with readable clear, or if a pointer
entry is found at level 0 so that the walk runs out of levels, then `ptw` never returns
normally, for any access class; and whenever the two assertions of `check_permission` hold
(effective mode user or supervisor, no fetch with `cpu.amo` set) it raises instruction-page-fault
for a fetch, load-page-fault for a load (store-page-fault when `cpu.amo` is set) and
store-page-fault for a store, with the trap-value register equal to the virtual address. -/
theorem ptw_structural_fault_raises (cfg : Config) (s : State) (pte0 : PTE)
    (vaddr type L : Nat) (hL : L ≤ 2) (hr : walk_reaches s vaddr L)
    (hbad : pte_malformed (pte_at s vaddr L) = true ∨
      (L = 0 ∧ pte_is_pointer (pte_at s vaddr 0) = true)) :
    (∀ v s1, ptw cfg s pte0 vaddr type ≠ .ret v s1) ∧
    ((eff_mode s (type == MEM_TYPE_IFETCH) = MODE_U ∨
        eff_mode s (type == MEM_TYPE_IFETCH) = MODE_S) →
      ¬ (type = MEM_TYPE_IFETCH ∧ s.amo = true) →
      ∃ s1, ptw cfg s pte0 vaddr type = .raise (class_page_fault s type) s1 ∧
        tval_reg s1 (class_page_fault s type) = vaddr) := by
  obtain ⟨P, hP⟩ := ptw_of_no_leaf cfg s pte0 vaddr type L hL hr hbad
  rw [hP]
  constructor
  · intro v s1 h
    rcases ptw_bad_not_ret_ok cfg s P vaddr type with ⟨ex, s2, h2⟩ | h2 <;>
      rw [h2] at h <;> cases h
  · intro hm hamo
    exact ptw_bad_raise cfg s P vaddr type hm hamo

theorem check_permission_ret (cfg : Config) (s : State) (pte : PTE) (ok : Bool)
    (vaddr type : Nat) (b : Bool) (s1 : State)
    (h : check_permission cfg s pte ok vaddr type = .ret b s1) :
    b = true ∧ s1 = s ∧
      (eff_mode s (type == MEM_TYPE_IFETCH) = MODE_U ∨
        eff_mode s (type == MEM_TYPE_IFETCH) = MODE_S) := by
  by_cases hm2 : eff_mode s (type == MEM_TYPE_IFETCH) = MODE_U ∨
      eff_mode s (type == MEM_TYPE_IFETCH) = MODE_S
  · have hm : (!(eff_mode s (type == MEM_TYPE_IFETCH) == MODE_U ||
        eff_mode s (type == MEM_TYPE_IFETCH) == MODE_S)) = false := by
      rcases hm2 with e | e <;> simp [e]
    unfold check_permission at h
    simp only [hm, Bool.false_eq_true, if_false] at h
    refine ⟨?_, ?_, hm2⟩
    · split_ifs at h <;> cases h <;> rfl
    · split_ifs at h <;> cases h <;> rfl
  · exfalso
    have hm : (!(eff_mode s (type == MEM_TYPE_IFETCH) == MODE_U ||
        eff_mode s (type == MEM_TYPE_IFETCH) == MODE_S)) = true := by
      simpa using hm2
    unfold check_permission at h
    simp only [hm, if_true] at h
    cases h

theorem misaligned_iff (p : PTE) (L : Nat) (hL : L ≤ 2) :
    (PGBASE p.ppn &&& ((1 <<< VPNiSHFT L) - 1)) ≠ 0 ↔ p.ppn % 2 ^ (9 * L) ≠ 0 := by
  have e1 : PGBASE p.ppn = (2 ^ 12 * p.ppn) % 2 ^ 44 := by
    unfold PGBASE PGSHFT
    rw [Nat.shiftLeft_eq, Nat.mul_comm]
  have e2 : (1 <<< VPNiSHFT L) = 2 ^ 12 * 2 ^ (9 * L) := by
    unfold VPNiSHFT PGSHFT
    rw [Nat.one_shiftLeft, pow_add]
  have hd : 2 ^ (12 + 9 * L) ∣ 2 ^ 44 := pow_dvd_pow 2 (by omega)
  rw [e1, e2, ← pow_add, Nat.and_pow_two_sub_one_eq_mod, Nat.mod_mod_of_dvd _ hd, pow_add,
    Nat.mul_mod_mul_left]
  constructor
  · intro h h0
    rw [h0] at h
    exact h rfl
  · intro h h0
    rcases Nat.mul_eq_zero.mp h0 with h1 | h1
    · exact absurd h1 (by positivity)
    · exact h h1

/-- Claim C4. For every walk in which `ptw` finds a leaf at level `L > 0` that passes the
permission check, if any of the low `9 * L` bits of the physical page number of the leaf is
set, `ptw` never returns a value (so never a truncated base); it raises the class-specific page
fault with the trap-value register equal to the virtual address (for a fetch, provided the
assertion `!cpu.amo` of `check_permission` holds). -/
theorem ptw_misaligned_superpage_faults (cfg : Config) (s : State) (pte0 : PTE)
    (vaddr type L : Nat) (hL : L ≤ 2) (hpos : 0 < L) (hr : walk_reaches s vaddr L)
    (hwf : pte_malformed (pte_at s vaddr L) = false)
    (hleaf : pte_is_leaf (pte_at s vaddr L) = true)
    (hperm : ∃ s1, check_permission cfg s (pte_at s vaddr L) true vaddr type = .ret true s1)
    (hmis : (pte_at s vaddr L).ppn % 2 ^ (9 * L) ≠ 0) :
    (∀ v s1, ptw cfg s pte0 vaddr type ≠ .ret v s1) ∧
    (¬ (type = MEM_TYPE_IFETCH ∧ s.amo = true) →
      ∃ s1, ptw cfg s pte0 vaddr type = .raise (class_page_fault s type) s1 ∧
        tval_reg s1 (class_page_fault s type) = vaddr) := by
  obtain ⟨s1, hs1⟩ := hperm
  obtain ⟨-, hs, hm⟩ := check_permission_ret _ _ _ _ _ _ _ _ hs1
  subst hs
  have hP : ∃ P, ptw cfg s1 pte0 vaddr type = ptw_bad cfg s1 P vaddr type := by
    unfold ptw
    by_cases hc : sext39 vaddr = vaddr
    · simp only [hc, ne_eq, not_true_eq_false, if_false]
      rw [walk_eq s1 vaddr type L hL hr]
      simp only [hwf, hleaf, Bool.false_eq_true, if_false, if_true, hs1]
      have := (misaligned_iff (pte_at s1 vaddr L) L hL).mpr hmis
      simp only [hpos, this, ne_eq, not_false_eq_true, and_self, if_true]
      exact ⟨_, rfl⟩
    · simp only [hc, ne_eq, not_false_eq_true, if_true]
      exact ⟨_, rfl⟩
  obtain ⟨P, hP⟩ := hP
  rw [hP]
  constructor
  · intro v s2 h
    rcases ptw_bad_not_ret_ok cfg s1 P vaddr type with ⟨ex, s3, h2⟩ | h2 <;>
      rw [h2] at h <;> cases h
  · intro hamo
    exact ptw_bad_raise cfg s1 P vaddr type hm hamo

theorem paddr_read_write_same (s : State) (p d : Nat) :
    paddr_read (paddr_write s p d) p = d % WORD := by
  unfold paddr_read paddr_write
  simp

theorem ptw_update_ad_formula (s : State) (p type i : Nat) :
    (paddr_read (ptw_update_ad s ⟨paddr_read s p⟩ p type) p).testBit i =
      ((paddr_read s p).testBit i ||
        (decide (i = 6) || (decide (i = 7) && (type == MEM_TYPE_WRITE)))) := by
  have hold : ∀ j, (paddr_read s p).testBit j = (decide (j < 64) && (s.mem p).testBit j) := by
    intro j
    unfold paddr_read WORD
    rw [Nat.testBit_mod_two_pow]
  have h40 : ∀ j, (0x40 : Nat).testBit j = decide (j = 6) := by
    intro j
    have : (0x40 : Nat) = 2 ^ 6 := by decide
    rw [this, Nat.testBit_two_pow]
    by_cases h : j = 6 <;> simp [h, eq_comm]
  have h80 : ∀ j, (0x80 : Nat).testBit j = decide (j = 7) := by
    intro j
    have : (0x80 : Nat) = 2 ^ 7 := by decide
    rw [this, Nat.testBit_two_pow]
    by_cases h : j = 7 <;> simp [h, eq_comm]
  unfold ptw_update_ad
  simp only [PTE.a, PTE.d]
  by_cases hc : (!(paddr_read s p).testBit 6 ||
      (!(paddr_read s p).testBit 7 && (type == MEM_TYPE_WRITE))) = true
  · simp only [hc, if_true]
    rw [paddr_read_write_same]
    unfold WORD
    rw [Nat.testBit_mod_two_pow]
    cases hw : (type == MEM_TYPE_WRITE)
    · simp only [Bool.false_eq_true, if_false, Nat.testBit_or, h40, hold]
      by_cases h6 : i = 6
      · subst h6; simp
      · simp [h6]
    · simp only [if_true, Nat.testBit_or, h40, h80, hold]
      by_cases h6 : i = 6
      · subst h6; simp
      · by_cases h7 : i = 7
        · subst h7; simp
        · simp [h6, h7]
  · simp only [hc, if_false]
    have h6 : (paddr_read s p).testBit 6 = true := by
      revert hc; cases (paddr_read s p).testBit 6 <;> simp
    have h7 : (paddr_read s p).testBit 7 = true ∨ (type == MEM_TYPE_WRITE) = false := by
      revert hc
      cases (paddr_read s p).testBit 7 <;> cases (type == MEM_TYPE_WRITE) <;> simp
    by_cases e6 : i = 6
    · subst e6; simp [h6]
    · by_cases e7 : i = 7
      · subst e7
        rcases h7 with h | h <;> simp [h]
      · simp [e6, e7]


theorem ptw_bad_ne_ret (cfg : Config) (s : State) (P : PTE) (vaddr type v : Nat) (s1 : State) :
    ptw_bad cfg s P vaddr type ≠ .ret v s1 := by
  intro h
  rcases ptw_bad_not_ret_ok cfg s P vaddr type with ⟨ex, s2, h2⟩ | h2 <;>
    rw [h2] at h <;> cases h

/-- Inversion of a normal return of `ptw`. -/
theorem ptw_ret_inv (cfg : Config) (s : State) (pte0 : PTE) (vaddr type v : Nat) (s1 : State)
    (h : ptw cfg s pte0 vaddr type = .ret v s1) :
    ∃ L, L ≤ 2 ∧ sext39 vaddr = vaddr ∧ walk_reaches s vaddr L ∧
      pte_malformed (pte_at s vaddr L) = false ∧ pte_is_leaf (pte_at s vaddr L) = true ∧
      check_permission cfg s (pte_at s vaddr L) true vaddr type = .ret true s ∧
      ¬ (0 < L ∧ (PGBASE (pte_at s vaddr L).ppn &&& ((1 <<< VPNiSHFT L) - 1)) ≠ 0) ∧
      s1 = (if cfg.share then s
            else ptw_update_ad s (pte_at s vaddr L) (pte_addr s vaddr L) type) ∧
      v = (if 0 < L then
              (PGBASE (pte_at s vaddr L).ppn &&& not64 ((1 <<< VPNiSHFT L) - 1)) |||
                (vaddr &&& ((1 <<< VPNiSHFT L) - 1) &&& not64 PGMASK)
            else PGBASE (pte_at s vaddr L).ppn) ||| MEM_RET_OK := by
  obtain ⟨L, hL, hr, hstop⟩ := walk_stops s vaddr
  refine ⟨L, hL, ?_⟩
  unfold ptw at h
  by_cases hc : sext39 vaddr = vaddr
  swap
  · simp only [hc, ne_eq, not_false_eq_true, if_true] at h
    exact absurd h (ptw_bad_ne_ret _ _ _ _ _ _ _)
  simp only [hc, ne_eq, not_true_eq_false, if_false] at h
  rw [walk_eq s vaddr type L hL hr] at h
  refine ⟨hc, hr, ?_⟩
  cases hm : pte_malformed (pte_at s vaddr L)
  swap
  · simp only [hm, if_true] at h
    exact absurd h (ptw_bad_ne_ret _ _ _ _ _ _ _)
  cases hl : pte_is_leaf (pte_at s vaddr L)
  · exfalso
    have hp : pte_is_pointer (pte_at s vaddr L) = true := by
      unfold pte_is_pointer; rw [hm, hl]; rfl
    rw [hp] at hstop
    rcases hstop with h0 | h0
    · cases h0
    · subst h0
      simp only [hm, hl, Bool.false_eq_true, if_false] at h
      exact absurd h (ptw_bad_ne_ret _ _ _ _ _ _ _)
  simp only [hm, hl, Bool.false_eq_true, if_false, if_true] at h
  cases hcp : check_permission cfg s (pte_at s vaddr L) true vaddr type with
  | abort => rw [hcp] at h; cases h
  | raise ex s2 => rw [hcp] at h; cases h
  | ret b s2 =>
    obtain ⟨hb, hs2, -⟩ := check_permission_ret _ _ _ _ _ _ _ _ hcp
    subst hb; subst hs2
    rw [hcp] at h
    simp only at h
    by_cases hmis : 0 < L ∧ (PGBASE (pte_at s2 vaddr L).ppn &&& ((1 <<< VPNiSHFT L) - 1)) ≠ 0
    · simp only [hmis, ne_eq, not_false_eq_true, and_self, if_true] at h
      exact absurd h (ptw_bad_ne_ret _ _ _ _ _ _ _)
    · rw [if_neg hmis] at h
      cases h
      refine ⟨rfl, rfl, rfl, hmis, rfl, rfl⟩

/-- Claim C5. Under the hardware-managed accessed/dirty policy (`CONFIG_SHARE` not defined),
after every `ptw` that returns, the walk has reached a leaf at some level `L`, and the entry
stored in memory at the address it was read from has accessed (bit 6) set; for a store it has
dirty (bit 7) set; for a load or fetch its dirty bit is the one it had before the walk; and
every other bit of that entry is unchanged. -/
theorem ptw_hw_sets_accessed_dirty (cfg : Config) (s : State) (pte0 : PTE)
    (vaddr type v : Nat) (s1 : State) (hshare : cfg.share = false)
    (hret : ptw cfg s pte0 vaddr type = .ret v s1) :
    ∃ L, L ≤ 2 ∧ walk_reaches s vaddr L ∧ pte_is_leaf (pte_at s vaddr L) = true ∧
      (paddr_read s1 (pte_addr s vaddr L)).testBit 6 = true ∧
      (type = MEM_TYPE_WRITE → (paddr_read s1 (pte_addr s vaddr L)).testBit 7 = true) ∧
      (type ≠ MEM_TYPE_WRITE →
        (paddr_read s1 (pte_addr s vaddr L)).testBit 7 =
          (paddr_read s (pte_addr s vaddr L)).testBit 7) ∧
      ∀ i, i ≠ 6 → i ≠ 7 →
        (paddr_read s1 (pte_addr s vaddr L)).testBit i =
          (paddr_read s (pte_addr s vaddr L)).testBit i := by
  obtain ⟨L, hL, -, hr, -, hleaf, -, -, hs1, -⟩ := ptw_ret_inv cfg s pte0 vaddr type v s1 hret
  refine ⟨L, hL, hr, hleaf, ?_⟩
  rw [hshare] at hs1
  simp only [Bool.false_eq_true, if_false] at hs1
  subst hs1
  have hf := ptw_update_ad_formula s (pte_addr s vaddr L) type
  have e : pte_at s vaddr L = ⟨paddr_read s (pte_addr s vaddr L)⟩ := rfl
  rw [e]
  refine ⟨?_, ?_, ?_, ?_⟩
  · rw [hf]; simp
  · intro ht; rw [hf, ht]; simp
  · intro ht
    have : (type == MEM_TYPE_WRITE) = false := by simpa using ht
    rw [hf, this]; simp
  · intro i h6 h7
    rw [hf]; simp [h6, h7]

theorem check_permission_share_ad (cfg : Config) (s : State) (pte : PTE) (ok : Bool)
    (vaddr type : Nat) (hshare : cfg.share = true)
    (had : pte.a = false ∨ (type = MEM_TYPE_WRITE ∧ pte.d = false)) :
    (∀ b s1, check_permission cfg s pte ok vaddr type ≠ .ret b s1) ∧
    ((eff_mode s (type == MEM_TYPE_IFETCH) = MODE_U ∨
        eff_mode s (type == MEM_TYPE_IFETCH) = MODE_S) →
      ¬ (type = MEM_TYPE_IFETCH ∧ s.amo = true) →
      ∃ s1, check_permission cfg s pte ok vaddr type = .raise (class_page_fault s type) s1 ∧
        tval_reg s1 (class_page_fault s type) = vaddr) := by
  by_cases hm : eff_mode s (type == MEM_TYPE_IFETCH) = MODE_U ∨
      eff_mode s (type == MEM_TYPE_IFETCH) = MODE_S
  swap
  · have hm1 : (!(eff_mode s (type == MEM_TYPE_IFETCH) == MODE_U ||
        eff_mode s (type == MEM_TYPE_IFETCH) == MODE_S)) = true := by
      simpa using hm
    refine ⟨?_, fun h => absurd h hm⟩
    intro b s1 h
    unfold check_permission at h
    simp only [hm1, if_true] at h
    cases h
  have hm1 : (!(eff_mode s (type == MEM_TYPE_IFETCH) == MODE_U ||
      eff_mode s (type == MEM_TYPE_IFETCH) == MODE_S)) = false := by
    rcases hm with e | e <;> simp [e]
  unfold check_permission class_page_fault
  simp only [hm1, hshare, Bool.false_eq_true, if_false, if_true]
  by_cases h1 : type = MEM_TYPE_IFETCH
  · have ha : pte.a = false := by
      rcases had with h | ⟨h, -⟩
      · exact h
      · rw [h1] at h; cases h
    simp only [h1, beq_self_eq_true, if_true, ha, Bool.not_false, Bool.or_true]
    constructor
    · intro b s1 h
      split_ifs at h
    · intro _ hamo
      have hamo2 : s.amo = false := by
        cases h : s.amo
        · rfl
        · exact absurd ⟨trivial, h⟩ hamo
      simp only [hamo2, Bool.false_eq_true, if_false]
      exact ⟨_, rfl, tval_reg_set_tval _ _ _⟩
  · have h1b : (type == MEM_TYPE_IFETCH) = false := by simpa using h1
    simp only [h1b, h1, Bool.false_eq_true, if_false]
    by_cases h2 : type = MEM_TYPE_READ
    · have ha : pte.a = false := by
        rcases had with h | ⟨h, -⟩
        · exact h
        · rw [h2] at h; cases h
      simp only [h2, beq_self_eq_true, if_true, ha, Bool.not_false, Bool.or_true]
      constructor
      · intro b s1 h; cases h
      · intro _ _
        exact ⟨_, rfl, tval_reg_set_tval_amo _ _ _ _⟩
    · have h2b : (type == MEM_TYPE_READ) = false := by simpa using h2
      have hu : (!pte.a || !pte.d) = true := by
        rcases had with h | ⟨-, h⟩ <;> simp [h]
      simp only [h2b, h2, Bool.false_eq_true, if_false, hu, Bool.or_true, if_true]
      constructor
      · intro b s1 h; cases h
      · intro _ _
        exact ⟨_, rfl, tval_reg_set_tval_amo _ _ _ _⟩

/-- Claim C6. Under the exception-based accessed/dirty policy (`CONFIG_SHARE` defined), for
every translation whose walk reaches a leaf with the accessed bit clear (or, for a store, the
dirty bit clear), whether or not the leaf also satisfies the privilege and capability rules,
`ptw` does not return: whenever the assertions of `check_permission` hold it raises the
class-specific page fault (instruction-, load- or store-page-fault) with the trap-value
register equal to the requested virtual address. -/
theorem ptw_share_ad_clear_faults (cfg : Config) (s : State) (pte0 : PTE)
    (vaddr type L : Nat) (hshare : cfg.share = true) (hL : L ≤ 2)
    (hr : walk_reaches s vaddr L)
    (hleaf : pte_is_leaf (pte_at s vaddr L) = true)
    (had : (pte_at s vaddr L).a = false ∨
      (type = MEM_TYPE_WRITE ∧ (pte_at s vaddr L).d = false)) :
    (∀ v s1, ptw cfg s pte0 vaddr type ≠ .ret v s1) ∧
    ((eff_mode s (type == MEM_TYPE_IFETCH) = MODE_U ∨
        eff_mode s (type == MEM_TYPE_IFETCH) = MODE_S) →
      ¬ (type = MEM_TYPE_IFETCH ∧ s.amo = true) →
      ∃ s1, ptw cfg s pte0 vaddr type = .raise (class_page_fault s type) s1 ∧
        tval_reg s1 (class_page_fault s type) = vaddr) := by
  by_cases hc : sext39 vaddr = vaddr
  swap
  · have hP : ptw cfg s pte0 vaddr type = ptw_bad cfg s pte0 vaddr type := by
      unfold ptw
      simp only [hc, ne_eq, not_false_eq_true, if_true]
    rw [hP]
    exact ⟨fun v s1 => ptw_bad_ne_ret _ _ _ _ _ _ _, ptw_bad_raise _ _ _ _ _⟩
  cases hm : pte_malformed (pte_at s vaddr L)
  swap
  · obtain ⟨P, hP⟩ := ptw_of_no_leaf cfg s pte0 vaddr type L hL hr (Or.inl hm)
    rw [hP]
    exact ⟨fun v s1 => ptw_bad_ne_ret _ _ _ _ _ _ _, ptw_bad_raise _ _ _ _ _⟩
  obtain ⟨h1, h2⟩ := check_permission_share_ad cfg s (pte_at s vaddr L) true vaddr type hshare had
  have hP : ptw cfg s pte0 vaddr type =
      (match check_permission cfg s (pte_at s vaddr L) true vaddr type with
        | .abort => .abort
        | .raise ex s1 => .raise ex s1
        | .ret _ s1 => .ret MEM_RET_FAIL s1) := by
    unfold ptw
    simp only [hc, ne_eq, not_true_eq_false, if_false]
    rw [walk_eq s vaddr type L hL hr]
    simp only [hm, hleaf, Bool.false_eq_true, if_false, if_true]
    cases hcp : check_permission cfg s (pte_at s vaddr L) true vaddr type with
    | abort => rfl
    | raise ex s2 => rfl
    | ret b s2 => exact absurd hcp (h1 b s2)
  rw [hP]
  constructor
  · intro v s1 h
    cases hcp : check_permission cfg s (pte_at s vaddr L) true vaddr type with
    | abort => rw [hcp] at h; cases h
    | raise ex s2 => rw [hcp] at h; cases h
    | ret b s2 => exact absurd hcp (h1 b s2)
  · intro hmode hamo
    obtain ⟨s1, e1, e2⟩ := h2 hmode hamo
    rw [e1]
    exact ⟨s1, rfl, e2⟩

theorem pmp_entry_none_of_not_hit (P : PmpRegs) (addr len type mode i : Nat)
    (h : pmp_hits P addr len i = false) :
    pmp_entry P addr len type mode i (pmp_base P i) = none := by
  unfold pmp_hits at h
  unfold pmp_entry
  cases hc : (pmp_cfg P i &&& PMP_A != 0)
  · simp
  · rw [hc] at h
    simp only [Bool.true_and] at h
    simp [h]

theorem pmp_entry_some_of_hit (P : PmpRegs) (addr len type mode i : Nat)
    (h : pmp_hits P addr len i = true) :
    pmp_entry P addr len type mode i (pmp_base P i) =
      some (if pmp_all_match P addr len i (pmp_base P i) then
              pmp_perm (pmp_cfg P i) type mode else false) := by
  unfold pmp_hits at h
  rw [Bool.and_eq_true] at h
  obtain ⟨hc, ha⟩ := h
  unfold pmp_entry
  rw [hc, ha]
  cases pmp_all_match P addr len i (pmp_base P i) <;> simp

/-- The entry loop, started at index `k` with the lower bound of that index, returns what the
first hitting entry `i` decides. -/
theorem pmp_loop_first_hit (P : PmpRegs) (addr len type mode i : Nat) (r : Bool)
    (hfirst : ∀ k, k < i → pmp_hits P addr len k = false)
    (hr : pmp_entry P addr len type mode i (pmp_base P i) = some r) :
    ∀ n k, k ≤ i → i < k + n →
      pmp_loop P addr len type mode n k (pmp_base P k) = r := by
  intro n
  induction n with
  | zero => intro k h1 h2; omega
  | succ n ih =>
    intro k h1 h2
    unfold pmp_loop
    by_cases hk : k = i
    · subst hk
      rw [hr]
    · have hlt : k < i := by omega
      rw [pmp_entry_none_of_not_hit P addr len type mode k (hfirst k hlt)]
      exact ih (k + 1) (by omega) (by omega)

/-- When no entry hits, the entry loop falls through to `return mode == MODE_M`. -/
theorem pmp_loop_no_hit (P : PmpRegs) (addr len type mode : Nat) :
    ∀ n k, (∀ j, k ≤ j → j < k + n → pmp_hits P addr len j = false) →
      pmp_loop P addr len type mode n k (pmp_base P k) = (mode == MODE_M) := by
  intro n
  induction n with
  | zero => intro k _; rfl
  | succ n ih =>
    intro k h
    unfold pmp_loop
    rw [pmp_entry_none_of_not_hit P addr len type mode k (h k (le_refl _) (by omega))]
    exact ih (k + 1) (fun j h1 h2 => h j (by omega) (by omega))

theorem isa_pmp_first_hit (P : PmpRegs) (s : State) (addr len type out_mode i : Nat)
    (hi : i < P.num) (hhit : pmp_hits P addr len i = true)
    (hfirst : ∀ k, k < i → pmp_hits P addr len k = false) :
    isa_pmp_check_permission P s addr len type out_mode =
      (if pmp_all_match P addr len i (pmp_base P i) then
        pmp_perm (pmp_cfg P i) type (pmp_eff_mode s type out_mode) else false) := by
  unfold isa_pmp_check_permission
  have hn : (P.num == 0) = false := by
    rw [beq_eq_false_iff_ne]; omega
  simp only [hn, Bool.false_eq_true, if_false]
  exact pmp_loop_first_hit P addr len type _ i _ hfirst
    (pmp_entry_some_of_hit P addr len type _ i hhit) P.num 0 (Nat.zero_le _) (by omega)

theorem pmp_base_congr (P Q : PmpRegs) (hmask : Q.tor_mask = P.tor_mask) (i : Nat)
    (hagree : ∀ k, k < i → Q.pmpaddr k = P.pmpaddr k) : pmp_base Q i = pmp_base P i := by
  cases i with
  | zero => rfl
  | succ j =>
    simp only [pmp_base, pmp_tor, pmp_addr, hmask, hagree j (Nat.lt_succ_self j)]

theorem pmp_any_match_congr (P Q : PmpRegs) (hmask : Q.tor_mask = P.tor_mask)
    (addr len i base : Nat) (ha : Q.pmpaddr i = P.pmpaddr i) (hc : Q.pmpcfg i = P.pmpcfg i) :
    pmp_any_match Q addr len i base = pmp_any_match P addr len i base := by
  simp only [pmp_any_match, pmp_match, pmp_mask, pmp_tor, pmp_cfg, pmp_addr, hmask, ha, hc]

theorem pmp_all_match_congr (P Q : PmpRegs) (hmask : Q.tor_mask = P.tor_mask)
    (addr len i base : Nat) (ha : Q.pmpaddr i = P.pmpaddr i) (hc : Q.pmpcfg i = P.pmpcfg i) :
    pmp_all_match Q addr len i base = pmp_all_match P addr len i base := by
  simp only [pmp_all_match, pmp_match, pmp_mask, pmp_tor, pmp_cfg, pmp_addr, hmask, ha, hc]

theorem pmp_hits_congr (P Q : PmpRegs) (hmask : Q.tor_mask = P.tor_mask) (addr len i : Nat)
    (hagree : ∀ k, k ≤ i → Q.pmpaddr k = P.pmpaddr k ∧ Q.pmpcfg k = P.pmpcfg k) :
    pmp_hits Q addr len i = pmp_hits P addr len i := by
  unfold pmp_hits
  rw [pmp_base_congr P Q hmask i (fun k hk => (hagree k (by omega)).1),
    pmp_any_match_congr P Q hmask addr len i _ (hagree i (le_refl _)).1 (hagree i (le_refl _)).2]
  simp only [pmp_cfg, (hagree i (le_refl _)).2]

/-- Claim C7. PMP matching in `isa_pmp_check_permission` is ordered by index: if `i` is the
lowest-index configured entry that matches some 4-byte sector of the access, the result is
what iteration `i` of the entry loop returns, and a second configuration that agrees with the
first on the address and configuration registers of entries `0..i` gives the same result,
whatever its entries above `i` contain. -/
theorem pmp_first_match_decides (P Q : PmpRegs) (s : State) (addr len type out_mode i : Nat)
    (hi : i < P.num) (hnum : Q.num = P.num) (hmask : Q.tor_mask = P.tor_mask)
    (hagree : ∀ k, k ≤ i → Q.pmpaddr k = P.pmpaddr k ∧ Q.pmpcfg k = P.pmpcfg k)
    (hhit : pmp_hits P addr len i = true)
    (hfirst : ∀ k, k < i → pmp_hits P addr len k = false) :
    pmp_entry P addr len type (pmp_eff_mode s type out_mode) i (pmp_base P i) =
      some (isa_pmp_check_permission P s addr len type out_mode) ∧
    isa_pmp_check_permission Q s addr len type out_mode =
      isa_pmp_check_permission P s addr len type out_mode := by
  have hP := isa_pmp_first_hit P s addr len type out_mode i hi hhit hfirst
  have hhitQ : pmp_hits Q addr len i = true := by
    rw [pmp_hits_congr P Q hmask addr len i hagree]; exact hhit
  have hfirstQ : ∀ k, k < i → pmp_hits Q addr len k = false := by
    intro k hk
    rw [pmp_hits_congr P Q hmask addr len k (fun j hj => hagree j (by omega))]
    exact hfirst k hk
  have hQ := isa_pmp_first_hit Q s addr len type out_mode i (by omega) hhitQ hfirstQ
  constructor
  · rw [hP]
    exact pmp_entry_some_of_hit P addr len type _ i hhit
  · rw [hP, hQ, pmp_base_congr P Q hmask i (fun k hk => (hagree k (by omega)).1),
      pmp_all_match_congr P Q hmask addr len i _ (hagree i (le_refl _)).1
        (hagree i (le_refl _)).2]
    simp only [pmp_cfg, (hagree i (le_refl _)).2]

/-- Claim C8. In `isa_pmp_check_permission`, if the first configured entry that matches at
least one 4-byte sector of the access does not match all of its sectors, the access is denied,
for every access class, every permission and lock bit of that entry and every effective mode
(machine mode included). -/
theorem pmp_incomplete_match_denied (P : PmpRegs) (s : State) (addr len type out_mode i : Nat)
    (hi : i < P.num) (hhit : pmp_hits P addr len i = true)
    (hfirst : ∀ k, k < i → pmp_hits P addr len k = false)
    (hnotall : pmp_all_match P addr len i (pmp_base P i) = false) :
    isa_pmp_check_permission P s addr len type out_mode = false := by
  rw [isa_pmp_first_hit P s addr len type out_mode i hi hhit hfirst, hnotall]
  rfl

/-- Trailing-ones extraction: for `x = 2^(n+1) * m + (2^n - 1)`, `x & ~(x + 1) = 2^n - 1`. -/
theorem and_not_succ_trailing (n m : Nat) (h : 2 ^ (n + 1) * m + 2 ^ n < 2 ^ 64) :
    (2 ^ (n + 1) * m + (2 ^ n - 1)) &&& not64 (2 ^ (n + 1) * m + (2 ^ n - 1) + 1) =
      2 ^ n - 1 := by
  have hpos : 0 < 2 ^ n := by positivity
  have hn : n < 64 := by
    by_contra hc
    have : 2 ^ 64 ≤ 2 ^ n := Nat.pow_le_pow_right (by decide) (by omega)
    omega
  have e1 : 2 ^ (n + 1) * m + (2 ^ n - 1) + 1 = 2 ^ (n + 1) * m + 2 ^ n := by omega
  have hlt1 : 2 ^ n - 1 < 2 ^ (n + 1) := by
    have : 2 ^ (n + 1) = 2 * 2 ^ n := by rw [pow_succ]; ring
    omega
  have hlt2 : 2 ^ n < 2 ^ (n + 1) := by
    have : 2 ^ (n + 1) = 2 * 2 ^ n := by rw [pow_succ]; ring
    omega
  have e2 : not64 (2 ^ (n + 1) * m + 2 ^ n) = 2 ^ 64 - (2 ^ (n + 1) * m + 2 ^ n + 1) := by
    unfold not64 WORD
    rw [Nat.mod_eq_of_lt h]
    omega
  rw [e1, e2]
  apply Nat.eq_of_testBit_eq
  intro j
  rw [Nat.testBit_and, Nat.testBit_two_pow_sub_succ h, Nat.testBit_mul_pow_two_add _ hlt1,
    Nat.testBit_mul_pow_two_add _ hlt2, Nat.testBit_two_pow_sub_one, Nat.testBit_two_pow]
  by_cases c1 : j < n
  · have c2 : j < n + 1 := by omega
    have c3 : ¬ n = j := by omega
    have c4 : j < 64 := by omega
    simp [c1, c2, c3, c4]
  · by_cases c2 : j < n + 1
    · simp [c1, c2]
    · simp only [c1, c2, if_false, decide_False, Bool.false_and, Bool.and_eq_false_imp,
        Bool.and_eq_true, decide_eq_true_eq, Bool.not_eq_true', Bool.and_false]
      cases m.testBit (j - (n + 1)) <;> simp


theorem pmp_offsets_mem (len off : Nat) :
    off ∈ pmp_offsets len ↔ ∃ k, off = 4 * k ∧ 4 * k < len := by
  unfold pmp_offsets
  have e : (1 <<< PMP_SHIFT) = 4 := by decide
  rw [e]
  simp only [List.mem_map, List.mem_range]
  constructor
  · rintro ⟨k, hk, rfl⟩
    exact ⟨k, by omega, by omega⟩
  · rintro ⟨k, rfl, hk⟩
    exact ⟨k, by omega, by omega⟩

/-- NAPOT decoding of `isa_pmp_check_permission` at 4-byte granularity: for an address
register `2^(k+1) * m + (2^k - 1)` the computed `tor` and `mask` are those of the block
`[2^(k+3) * m, 2^(k+3) * (m + 1))`. -/
theorem pmp_napot_tor_mask (P : PmpRegs) (i k m : Nat)
    (hmask : P.tor_mask = WORD - 1)
    (hna : pmp_cfg P i &&& PMP_A = PMP_NAPOT)
    (haddr : P.pmpaddr i = 2 ^ (k + 1) * m + (2 ^ k - 1))
    (hblk : 2 ^ (k + 3) * (m + 1) ≤ 2 ^ 64) :
    pmp_tor P i = 2 ^ (k + 3) * m + 4 * (2 ^ k - 1) ∧
    pmp_mask P i = 2 ^ (k + 3) * (2 ^ (61 - k) - 1) := by
  have hpos : 0 < 2 ^ k := by positivity
  have p1 : 2 ^ (k + 1) = 2 * 2 ^ k := by rw [pow_succ]; ring
  have p3 : 2 ^ (k + 3) = 8 * 2 ^ k := by rw [pow_add]; ring
  have hk : k ≤ 61 := by
    by_contra hc
    have : 2 ^ 62 ≤ 2 ^ k := Nat.pow_le_pow_right (by decide) (by omega)
    have : 2 ^ (k + 3) ≤ 2 ^ (k + 3) * (m + 1) := Nat.le_mul_of_pos_right _ (by omega)
    omega
  have hmul : 2 ^ (k + 3) * (m + 1) = 8 * (2 ^ k * m) + 8 * 2 ^ k := by rw [p3]; ring
  have hm1 : 2 ^ (k + 1) * m = 2 * (2 ^ k * m) := by rw [p1]; ring
  have hm3 : 2 ^ (k + 3) * m = 8 * (2 ^ k * m) := by rw [p3]; ring
  have ha : pmp_addr P i = 2 ^ (k + 1) * m + (2 ^ k - 1) := by
    unfold pmp_addr WORD
    rw [haddr]
    apply Nat.mod_eq_of_lt
    omega
  constructor
  · unfold pmp_tor
    rw [ha, hmask]
    have : WORD - 1 = 2 ^ 64 - 1 := rfl
    rw [this, Nat.and_pow_two_sub_one_eq_mod, Nat.shiftLeft_eq]
    unfold PMP_SHIFT WORD
    rw [Nat.mod_eq_of_lt (by omega), Nat.mod_eq_of_lt (by omega)]
    omega
  · have hn4 : (pmp_cfg P i &&& PMP_A == PMP_NA4) = false := by
      rw [hna]; decide
    have hz : not64 P.tor_mask = 0 := by rw [hmask]; decide
    have p2 : 2 ^ (k + 1 + 1) = 4 * 2 ^ k := by rw [pow_add, pow_add]; ring
    have hm2 : 2 ^ (k + 1 + 1) * m = 4 * (2 ^ k * m) := by rw [p2]; ring
    have e00 : (pmp_addr P i <<< 1) % WORD = 2 ^ 1 * (2 ^ (k + 1) * m + (2 ^ k - 1)) := by
      rw [ha, Nat.shiftLeft_eq]
      unfold WORD
      rw [Nat.mod_eq_of_lt (by omega)]
      ring
    have e0 : ((pmp_addr P i <<< 1) % WORD ||| 1) ||| 0 =
        2 ^ (k + 1 + 1) * m + (2 ^ (k + 1) - 1) := by
      rw [Nat.or_zero, e00, ← Nat.mul_add_lt_is_or (by decide), hm2, hm1, p1]
      omega
    have e1 := and_not_succ_trailing (k + 1) m (by rw [hm2, p1]; omega)
    have e61 : 2 ^ (k + 3) * (2 ^ (61 - k) - 1) = 2 ^ 64 - 2 ^ (k + 3) := by
      rw [Nat.mul_sub, ← pow_add]
      have : k + 3 + (61 - k) = 64 := by omega
      rw [this, Nat.mul_one]
    have e2 : (not64 (2 ^ (k + 1) - 1) <<< PMP_SHIFT) % WORD = 2 ^ 64 - 2 ^ (k + 3) := by
      unfold not64 WORD PMP_SHIFT
      rw [Nat.shiftLeft_eq, Nat.mod_eq_of_lt (show 2 ^ (k + 1) - 1 < 2 ^ 64 by omega), p1, p3]
      omega
    unfold pmp_mask
    simp only [hn4, hz, Bool.false_eq_true, if_false]
    rw [e0, e1, e2, e61]


theorem pmp_napot_match (P : PmpRegs) (i k m base cur : Nat)
    (hmask : P.tor_mask = WORD - 1)
    (hna : pmp_cfg P i &&& PMP_A = PMP_NAPOT)
    (haddr : P.pmpaddr i = 2 ^ (k + 1) * m + (2 ^ k - 1))
    (hblk : 2 ^ (k + 3) * (m + 1) ≤ 2 ^ 64)
    (h1 : 2 ^ (k + 3) * m ≤ cur) (h2 : cur < 2 ^ (k + 3) * (m + 1)) :
    pmp_match P i base cur = true := by
  obtain ⟨ht, hm⟩ := pmp_napot_tor_mask P i k m hmask hna haddr hblk
  have hpos : 0 < 2 ^ k := by positivity
  have p3 : 2 ^ (k + 3) = 8 * 2 ^ k := by rw [pow_add]; ring
  have hsucc : 2 ^ (k + 3) * (m + 1) = 2 ^ (k + 3) * m + 2 ^ (k + 3) := by ring
  have hnt : (pmp_cfg P i &&& PMP_A == PMP_TOR) = false := by
    rw [hna]; decide
  unfold pmp_match
  simp only [hnt, Bool.false_eq_true, if_false, beq_iff_eq]
  rw [ht, hm]
  obtain ⟨c0, hc0, hc0lt⟩ : ∃ c0, cur = 2 ^ (k + 3) * m + c0 ∧ c0 < 2 ^ (k + 3) :=
    ⟨cur - 2 ^ (k + 3) * m, by omega, by omega⟩
  have ht0 : 4 * (2 ^ k - 1) < 2 ^ (k + 3) := by omega
  apply Nat.eq_of_testBit_eq
  intro j
  rw [Nat.testBit_and, Nat.testBit_xor, Nat.zero_testBit, Nat.testBit_mul_pow_two, hc0,
    Nat.testBit_mul_pow_two_add _ hc0lt, Nat.testBit_mul_pow_two_add _ ht0]
  by_cases hj : j < k + 3
  · have : ¬ j ≥ k + 3 := by omega
    simp [this]
  · simp [hj]

/-- Claim C9. At 4-byte granularity (`pmp_tor_mask()` all ones), when the only configured PMP
entry is a NAPOT entry whose address register ends in a 0 followed by `k` ones, i.e. encodes
the block `[2^(k+3) * m, 2^(k+3) * (m + 1))`, and the entry has no execute permission (whatever
its read and write bits), a fetch of positive length lying inside the block is allowed exactly
when the effective mode is machine and the lock bit of the entry is clear; so it is denied in
user mode, in supervisor mode and in machine mode with the lock bit set. -/
theorem pmp_napot_fetch_without_x (P : PmpRegs) (s : State) (addr len out_mode i k m : Nat)
    (hi : i < P.num) (hmask : P.tor_mask = WORD - 1)
    (honly : ∀ j, j ≠ i → pmp_cfg P j &&& PMP_A = 0)
    (hna : pmp_cfg P i &&& PMP_A = PMP_NAPOT)
    (hx : pmp_cfg P i &&& PMP_X = 0)
    (haddr : P.pmpaddr i = 2 ^ (k + 1) * m + (2 ^ k - 1))
    (hblk : 2 ^ (k + 3) * (m + 1) ≤ 2 ^ 64)
    (hlen : 0 < len) (hlo : 2 ^ (k + 3) * m ≤ addr)
    (hhi : addr + len ≤ 2 ^ (k + 3) * (m + 1)) :
    isa_pmp_check_permission P s addr len MEM_TYPE_IFETCH out_mode =
      (pmp_eff_mode s MEM_TYPE_IFETCH out_mode == MODE_M &&
        (pmp_cfg P i &&& PMP_L) == 0) := by
  have hsector : ∀ off ∈ pmp_offsets len,
      pmp_match P i (pmp_base P i) ((addr + off) % WORD) = true := by
    intro off hoff
    obtain ⟨q, rfl, hq⟩ := (pmp_offsets_mem len _).mp hoff
    have e : (addr + 4 * q) % WORD = addr + 4 * q := by
      apply Nat.mod_eq_of_lt
      unfold WORD
      omega
    rw [e]
    exact pmp_napot_match P i k m _ _ hmask hna haddr hblk (by omega) (by omega)
  have hall : pmp_all_match P addr len i (pmp_base P i) = true := by
    unfold pmp_all_match
    rw [List.all_eq_true]
    exact hsector
  have hany : pmp_any_match P addr len i (pmp_base P i) = true := by
    unfold pmp_any_match
    rw [List.any_eq_true]
    have h0 : 0 ∈ pmp_offsets len := (pmp_offsets_mem len 0).mpr ⟨0, rfl, by omega⟩
    exact ⟨0, h0, hsector 0 h0⟩
  have hhit : pmp_hits P addr len i = true := by
    unfold pmp_hits
    rw [hany, hna]
    decide
  have hfirst : ∀ j, j < i → pmp_hits P addr len j = false := by
    intro j hj
    unfold pmp_hits
    rw [honly j (by omega)]
    rfl
  rw [isa_pmp_first_hit P s addr len MEM_TYPE_IFETCH out_mode i hi hhit hfirst, hall]
  unfold pmp_perm
  rw [hx]
  simp [MEM_TYPE_IFETCH, MEM_TYPE_READ, MEM_TYPE_IFETCH_READ, MEM_TYPE_WRITE_READ,
    MEM_TYPE_WRITE]

theorem isa_mmu_check_noncanonical_faults_witness :
    eff_mode (demo_state (demo_mem 0)) (MEM_TYPE_READ == MEM_TYPE_IFETCH) < MODE_M ∧
    ∃ s1, isa_mmu_check cfg_hw (demo_state (demo_mem 0)) (2 ^ 39) 8 MEM_TYPE_READ =
        .raise EX_LPF s1 ∧ tval_reg s1 EX_LPF = 2 ^ 39 :=
  ⟨by decide,
   isa_mmu_check_noncanonical_faults cfg_hw (demo_state (demo_mem 0)) (2 ^ 39) 8 MEM_TYPE_READ
    (fun h => absurd (h 39 (by decide) (by decide)) (by decide)) (by decide) rfl⟩

theorem ptw_structural_fault_raises_witness :
    walk_reaches (demo_state (demo_mem1 0)) 0x10 1 ∧
    pte_malformed (pte_at (demo_state (demo_mem1 0)) 0x10 1) = true ∧
    (∃ s1, ptw cfg_hw (demo_state (demo_mem1 0)) ⟨0⟩ 0x10 MEM_TYPE_IFETCH =
        .raise EX_IPF s1 ∧ tval_reg s1 EX_IPF = 0x10) ∧
    (pte_at (demo_state (demo_mem_hi 0 0x8000df)) 0x123456 2).ppn = 0x100001001 ∧
    pte_addr (demo_state (demo_mem_hi 0 0x8000df)) 0x123456 1 = 0x1001000 ∧
    pte_malformed (pte_at (demo_state (demo_mem_hi 0 0x8000df)) 0x123456 1) = true ∧
    ∃ s1, ptw cfg_hw (demo_state (demo_mem_hi 0 0x8000df)) ⟨0⟩ 0x123456 MEM_TYPE_READ =
        .raise EX_LPF s1 ∧ tval_reg s1 EX_LPF = 0x123456 :=
  ⟨by decide, by decide,
   (ptw_structural_fault_raises cfg_hw (demo_state (demo_mem1 0)) ⟨0⟩ 0x10 MEM_TYPE_IFETCH 1
      (by decide) (by decide) (Or.inl (by decide))).2 (Or.inl rfl) (by decide),
   by decide, by decide, by decide,
   (ptw_structural_fault_raises cfg_hw (demo_state (demo_mem_hi 0 0x8000df)) ⟨0⟩ 0x123456
      MEM_TYPE_READ 1 (by decide) (by decide) (Or.inl (by decide))).2 (Or.inl rfl)
      (by decide)⟩

theorem ptw_misaligned_superpage_faults_witness :
    pte_is_leaf (pte_at (demo_state (demo_mem1 0x80045b)) 0x10 1) = true ∧
    (pte_at (demo_state (demo_mem1 0x80045b)) 0x10 1).ppn % 2 ^ (9 * 1) = 1 ∧
    (∃ s1, ptw cfg_hw (demo_state (demo_mem1 0x80045b)) ⟨0⟩ 0x10 MEM_TYPE_READ =
        .raise EX_LPF s1 ∧ tval_reg s1 EX_LPF = 0x10) ∧
    pte_addr (demo_state (demo_mem_hi 0x4000000045b 0)) 0x10 1 = 0x1001000 ∧
    (pte_at (demo_state (demo_mem_hi 0x4000000045b 0)) 0x10 1).ppn = 0x100000001 ∧
    ∃ s1, ptw cfg_hw (demo_state (demo_mem_hi 0x4000000045b 0)) ⟨0⟩ 0x10 MEM_TYPE_READ =
        .raise EX_LPF s1 ∧ tval_reg s1 EX_LPF = 0x10 :=
  ⟨by decide, by decide,
   (ptw_misaligned_superpage_faults cfg_hw (demo_state (demo_mem1 0x80045b)) ⟨0⟩ 0x10
      MEM_TYPE_READ 1 (by decide) (by decide) (by decide) (by decide) (by decide)
      ⟨_, rfl⟩ (by decide)).2 (by decide),
   by decide, by decide,
   (ptw_misaligned_superpage_faults cfg_hw (demo_state (demo_mem_hi 0x4000000045b 0)) ⟨0⟩ 0x10
      MEM_TYPE_READ 1 (by decide) (by decide) (by decide) (by decide) (by decide)
      ⟨_, rfl⟩ (by decide)).2 (by decide)⟩

theorem ptw_hw_sets_accessed_dirty_witness :
    paddr_read (demo_state (demo_mem 0x80001f)) 0x1002000 = 0x80001f ∧
    paddr_read (ptw_update_ad (demo_state (demo_mem 0x80001f)) ⟨0x80001f⟩ 0x1002000
      MEM_TYPE_WRITE) 0x1002000 = 0x8000df ∧
    (∃ L, L ≤ 2 ∧ walk_reaches (demo_state (demo_mem 0x80001f)) 0x10 L ∧
      pte_is_leaf (pte_at (demo_state (demo_mem 0x80001f)) 0x10 L) = true ∧
      (paddr_read (ptw_update_ad (demo_state (demo_mem 0x80001f)) ⟨0x80001f⟩ 0x1002000
        MEM_TYPE_WRITE) (pte_addr (demo_state (demo_mem 0x80001f)) 0x10 L)).testBit 6 = true) ∧
    ptw cfg_hw (demo_state (demo_mem_hi 0x80001f 0)) ⟨0⟩ 0x123456 MEM_TYPE_WRITE =
      .ret 0x2123000 (ptw_update_ad (demo_state (demo_mem_hi 0x80001f 0)) ⟨0x80001f⟩ 0x1001000
        MEM_TYPE_WRITE) ∧
    paddr_read (ptw_update_ad (demo_state (demo_mem_hi 0x80001f 0)) ⟨0x80001f⟩ 0x1001000
      MEM_TYPE_WRITE) 0x1001000 = 0x8000df ∧
    ∃ L, L ≤ 2 ∧ walk_reaches (demo_state (demo_mem_hi 0x80001f 0)) 0x123456 L ∧
      pte_is_leaf (pte_at (demo_state (demo_mem_hi 0x80001f 0)) 0x123456 L) = true ∧
      (paddr_read (ptw_update_ad (demo_state (demo_mem_hi 0x80001f 0)) ⟨0x80001f⟩ 0x1001000
        MEM_TYPE_WRITE)
        (pte_addr (demo_state (demo_mem_hi 0x80001f 0)) 0x123456 L)).testBit 6 = true :=
  ⟨by decide, by decide,
   match ptw_hw_sets_accessed_dirty cfg_hw (demo_state (demo_mem 0x80001f)) ⟨0⟩ 0x10
      MEM_TYPE_WRITE 0x2000000
      (ptw_update_ad (demo_state (demo_mem 0x80001f)) ⟨0x80001f⟩ 0x1002000 MEM_TYPE_WRITE)
      rfl rfl with
   | ⟨L, h1, h2, h3, h4, _⟩ => ⟨L, h1, h2, h3, h4⟩,
   rfl, by decide,
   match ptw_hw_sets_accessed_dirty cfg_hw (demo_state (demo_mem_hi 0x80001f 0)) ⟨0⟩ 0x123456
      MEM_TYPE_WRITE 0x2123000
      (ptw_update_ad (demo_state (demo_mem_hi 0x80001f 0)) ⟨0x80001f⟩ 0x1001000 MEM_TYPE_WRITE)
      rfl rfl with
   | ⟨L, h1, h2, h3, h4, _⟩ => ⟨L, h1, h2, h3, h4⟩⟩

theorem ptw_share_ad_clear_faults_witness :
    walk_reaches (demo_state (demo_mem 0x80001b)) 0x10 0 ∧
    (pte_at (demo_state (demo_mem 0x80001b)) 0x10 0).a = false ∧
    check_permission cfg_hw (demo_state (demo_mem 0x80001b))
      (pte_at (demo_state (demo_mem 0x80001b)) 0x10 0) true 0x10 MEM_TYPE_READ =
        .ret true (demo_state (demo_mem 0x80001b)) ∧
    (∃ s1, ptw cfg_share (demo_state (demo_mem 0x80001b)) ⟨0⟩ 0x10 MEM_TYPE_READ =
        .raise EX_LPF s1 ∧ tval_reg s1 EX_LPF = 0x10) ∧
    pte_addr (demo_state (demo_mem_hi 0x80001b 0x8000df)) 0x123456 1 = 0x1001000 ∧
    (pte_at (demo_state (demo_mem_hi 0x80001b 0x8000df)) 0x123456 1).a = false ∧
    ∃ s1, ptw cfg_share (demo_state (demo_mem_hi 0x80001b 0x8000df)) ⟨0⟩ 0x123456
        MEM_TYPE_READ = .raise EX_LPF s1 ∧ tval_reg s1 EX_LPF = 0x123456 :=
  ⟨by decide, by decide, rfl,
   (ptw_share_ad_clear_faults cfg_share (demo_state (demo_mem 0x80001b)) ⟨0⟩ 0x10
      MEM_TYPE_READ 0 rfl (by decide) (by decide) (by decide) (Or.inl (by decide))).2
      (Or.inl rfl) (by decide),
   by decide, by decide,
   (ptw_share_ad_clear_faults cfg_share (demo_state (demo_mem_hi 0x80001b 0x8000df)) ⟨0⟩
      0x123456 MEM_TYPE_READ 1 rfl (by decide) (by decide) (by decide)
      (Or.inl (by decide))).2 (Or.inl rfl) (by decide)⟩

theorem pmp_first_match_decides_witness :
    pmp_hits (demo_pmp_two 0x09 0x3fffffffffffff 0x1f) 0x100 8 0 = true ∧
    pmp_hits (demo_pmp_two 0x09 0x3fffffffffffff 0x1f) 0x100 8 1 = true ∧
    isa_pmp_check_permission (demo_pmp_two 0x09 0x3fffffffffffff 0x1f)
      (demo_state (demo_mem 0)) 0x100 8 MEM_TYPE_WRITE MODE_U = false ∧
    isa_pmp_check_permission (demo_pmp_two 0x09 0x800 0x08)
      (demo_state (demo_mem 0)) 0x100 8 MEM_TYPE_WRITE MODE_U = false :=
  ⟨by decide, by decide, by decide,
   ((pmp_first_match_decides (demo_pmp_two 0x09 0x3fffffffffffff 0x1f)
      (demo_pmp_two 0x09 0x800 0x08) (demo_state (demo_mem 0)) 0x100 8 MEM_TYPE_WRITE MODE_U 0
      (by decide) rfl rfl (fun k hk => by
        have : k = 0 := by omega
        subst this
        exact ⟨rfl, rfl⟩)
      (by decide) (fun k hk => absurd hk (by omega))).2).trans (by decide)⟩

theorem pmp_incomplete_match_denied_witness :
    pmp_hits (demo_pmp_two 0x0f 0 0) 0xffc 8 0 = true ∧
    pmp_all_match (demo_pmp_two 0x0f 0 0) 0xffc 8 0 0 = false ∧
    pmp_eff_mode { demo_state (demo_mem 0) with mode := MODE_M } MEM_TYPE_READ MODE_M = MODE_M ∧
    isa_pmp_check_permission (demo_pmp_two 0x0f 0 0)
      { demo_state (demo_mem 0) with mode := MODE_M } 0xffc 8 MEM_TYPE_READ MODE_M = false :=
  ⟨by decide, by decide, by decide,
   pmp_incomplete_match_denied (demo_pmp_two 0x0f 0 0)
      { demo_state (demo_mem 0) with mode := MODE_M } 0xffc 8 MEM_TYPE_READ MODE_M 0
      (by decide) (by decide) (fun k hk => absurd hk (by omega)) (by decide)⟩

theorem pmp_napot_fetch_without_x_witness :
    isa_pmp_check_permission (demo_pmp_napot 0x1b) (demo_state (demo_mem 0))
      0x80000000 4 MEM_TYPE_IFETCH MODE_U = false ∧
    isa_pmp_check_permission (demo_pmp_napot 0x1b) (demo_state (demo_mem 0))
      0x80000000 4 MEM_TYPE_IFETCH MODE_S = false ∧
    isa_pmp_check_permission (demo_pmp_napot 0x9b)
      { demo_state (demo_mem 0) with mode := MODE_M }
      0x80000000 4 MEM_TYPE_IFETCH MODE_M = false ∧
    isa_pmp_check_permission (demo_pmp_napot 0x1b)
      { demo_state (demo_mem 0) with mode := MODE_M }
      0x80000000 4 MEM_TYPE_IFETCH MODE_M = true :=
  ⟨pmp_napot_fetch_without_x (demo_pmp_napot 0x1b) (demo_state (demo_mem 0))
      0x80000000 4 MODE_U 0 9 0x80000 (by decide) rfl
      (fun j hj => by simp [pmp_cfg, demo_pmp_napot, hj]) (by decide) (by decide)
      (by decide) (by decide) (by decide) (by decide) (by decide),
   pmp_napot_fetch_without_x (demo_pmp_napot 0x1b) (demo_state (demo_mem 0))
      0x80000000 4 MODE_S 0 9 0x80000 (by decide) rfl
      (fun j hj => by simp [pmp_cfg, demo_pmp_napot, hj]) (by decide) (by decide)
      (by decide) (by decide) (by decide) (by decide) (by decide),
   pmp_napot_fetch_without_x (demo_pmp_napot 0x9b)
      { demo_state (demo_mem 0) with mode := MODE_M }
      0x80000000 4 MODE_M 0 9 0x80000 (by decide) rfl
      (fun j hj => by simp [pmp_cfg, demo_pmp_napot, hj]) (by decide) (by decide)
      (by decide) (by decide) (by decide) (by decide) (by decide),
   pmp_napot_fetch_without_x (demo_pmp_napot 0x1b)
      { demo_state (demo_mem 0) with mode := MODE_M }
      0x80000000 4 MODE_M 0 9 0x80000 (by decide) rfl
      (fun j hj => by simp [pmp_cfg, demo_pmp_napot, hj]) (by decide) (by decide)
      (by decide) (by decide) (by decide) (by decide) (by decide)⟩

theorem perm_fetch_bool : ∀ ok v u x a share sum mU mS : Bool,
    (!(ok && v && !(mU && !u) && !(u && (mS && (!sum || true))) && x) ||
        if share = true then !a else false) =
      !(ok && v && (!(mU && !u) && !(u && mS && (!sum || true))) && x && !(share && !a)) := by
  decide

theorem perm_load_bool : ∀ ok v u c a share sum mU mS : Bool,
    (!(ok && v && !(mU && !u) && !(u && (mS && (!sum || false))) && c) ||
        if share = true then !a else false) =
      !(ok && v && (!(mU && !u) && !(u && mS && (!sum || false))) && c && !(share && !a)) := by
  decide

theorem perm_store_bool : ∀ ok v u w a d share sum mU mS : Bool,
    (!(ok && v && !(mU && !u) && !(u && (mS && (!sum || false))) && w) ||
        if share = true then !a || !d else false) =
      !(ok && v && (!(mU && !u) && !(u && mS && (!sum || false))) && w &&
        !(share && (!a || !d))) := by
  decide

/-- The result of `check_permission` under its mode assertion, in terms of the rules of the
spec. -/
theorem check_permission_eq (cfg : Config) (s : State) (pte : PTE) (ok : Bool)
    (vaddr type : Nat)
    (hm : eff_mode s (type == MEM_TYPE_IFETCH) = MODE_U ∨
      eff_mode s (type == MEM_TYPE_IFETCH) = MODE_S) :
    check_permission cfg s pte ok vaddr type =
      if (ok && pte.v && priv_ok s pte type && cap_ok s pte type && !ad_fault cfg pte type) then
        .ret true s
      else if type = MEM_TYPE_IFETCH then
        (if s.amo then .abort else .raise EX_IPF (set_tval s EX_IPF vaddr))
      else if type = MEM_TYPE_READ then
        .raise (if s.amo then EX_SPF else EX_LPF)
          { set_tval s (if s.amo then EX_SPF else EX_LPF) vaddr with amo := false }
      else .raise EX_SPF { set_tval s EX_SPF vaddr with amo := false } := by
  have hm1 : (!(eff_mode s (type == MEM_TYPE_IFETCH) == MODE_U ||
      eff_mode s (type == MEM_TYPE_IFETCH) == MODE_S)) = false := by
    rcases hm with e | e <;> simp [e]
  unfold check_permission priv_ok cap_ok ad_fault
  simp only [hm1, Bool.false_eq_true, if_false]
  by_cases h1 : type = MEM_TYPE_IFETCH
  · subst h1
    simp only [beq_self_eq_true, if_true, true_or, perm_fetch_bool]
    cases (ok && pte.v &&
      (!(eff_mode s true == MODE_U && !pte.u) &&
        !(pte.u && eff_mode s true == MODE_S && (!s.sum || true))) &&
      pte.x && !(cfg.share && !pte.a)) <;> rfl
  · have h1b : (type == MEM_TYPE_IFETCH) = false := by simpa using h1
    simp only [h1b, h1, Bool.false_eq_true, if_false, false_or]
    by_cases h2 : type = MEM_TYPE_READ
    · subst h2
      simp only [beq_self_eq_true, if_true, perm_load_bool]
      cases (ok && pte.v &&
        (!(eff_mode s false == MODE_U && !pte.u) &&
          !(pte.u && eff_mode s false == MODE_S && (!s.sum || false))) &&
        (pte.r || s.mxr && pte.x) && !(cfg.share && !pte.a)) <;> rfl
    · have h2b : (type == MEM_TYPE_READ) = false := by simpa using h2
      simp only [h2b, h2, Bool.false_eq_true, if_false, perm_store_bool]
      cases (ok && pte.v &&
        (!(eff_mode s false == MODE_U && !pte.u) &&
          !(pte.u && eff_mode s false == MODE_S && (!s.sum || false))) &&
        pte.w && !(cfg.share && (!pte.a || !pte.d))) <;> rfl


/-- What `check_permission` does when the rules of the spec deny the access. -/
theorem check_permission_denied (cfg : Config) (s : State) (pte : PTE) (ok : Bool)
    (vaddr type : Nat)
    (hm : eff_mode s (type == MEM_TYPE_IFETCH) = MODE_U ∨
      eff_mode s (type == MEM_TYPE_IFETCH) = MODE_S)
    (hd : (ok && pte.v && priv_ok s pte type && cap_ok s pte type && !ad_fault cfg pte type)
      = false) :
    (∀ b s1, check_permission cfg s pte ok vaddr type ≠ .ret b s1) ∧
    (¬ (type = MEM_TYPE_IFETCH ∧ s.amo = true) →
      ∃ s1, check_permission cfg s pte ok vaddr type = .raise (class_page_fault s type) s1 ∧
        tval_reg s1 (class_page_fault s type) = vaddr) := by
  rw [check_permission_eq cfg s pte ok vaddr type hm, hd]
  simp only [Bool.false_eq_true, if_false]
  unfold class_page_fault
  by_cases h1 : type = MEM_TYPE_IFETCH
  · simp only [h1, if_true]
    constructor
    · intro b s1 h
      split_ifs at h
    · intro hamo
      have ha : s.amo = false := by
        cases h : s.amo
        · rfl
        · exact absurd ⟨trivial, h⟩ hamo
      simp only [ha, Bool.false_eq_true, if_false]
      exact ⟨_, rfl, tval_reg_set_tval _ _ _⟩
  · simp only [h1, if_false]
    by_cases h2 : type = MEM_TYPE_READ
    · simp only [h2, if_true]
      refine ⟨fun b s1 h => (nomatch h), fun _ => ?_⟩
      exact ⟨_, rfl, tval_reg_set_tval_amo _ _ _ _⟩
    · simp only [h2, if_false]
      refine ⟨fun b s1 h => (nomatch h), fun _ => ?_⟩
      exact ⟨_, rfl, tval_reg_set_tval_amo _ _ _ _⟩

/-- What `check_permission` does when the rules of the spec allow the access. -/
theorem check_permission_allowed_iff (cfg : Config) (s : State) (pte : PTE) (ok : Bool)
    (vaddr type : Nat)
    (hm : eff_mode s (type == MEM_TYPE_IFETCH) = MODE_U ∨
      eff_mode s (type == MEM_TYPE_IFETCH) = MODE_S) :
    check_permission cfg s pte ok vaddr type = .ret true s ↔
      (ok && pte.v && priv_ok s pte type && cap_ok s pte type && !ad_fault cfg pte type)
        = true := by
  constructor
  · intro h
    by_contra hc
    have hd : (ok && pte.v && priv_ok s pte type && cap_ok s pte type &&
        !ad_fault cfg pte type) = false := by simpa using hc
    exact (check_permission_denied cfg s pte ok vaddr type hm hd).1 true s h
  · intro h
    rw [check_permission_eq cfg s pte ok vaddr type hm, h]
    rfl

/-- Claim C11. `check_permission` enforces the privilege rules, with the effective mode taken as
`mstatus->mpp` when `mprv` is set and the access is not a fetch and as `cpu.mode` otherwise:
(a) a user-mode access to a page with the user bit clear is denied; (b) a supervisor-mode data
access to a page with the user bit set is denied when the SUM control is clear, and when SUM is
set it is allowed exactly when the remaining rules (structural flag, valid, capability bit,
accessed/dirty policy) allow it; (c) a supervisor-mode fetch from a page with the user bit
set is denied whatever SUM is. Denied means that `true` is not returned and the class-specific
page fault is raised with the trap-value register equal to `vaddr` (for a fetch, provided the
assertion `!cpu.amo` holds). -/
theorem check_permission_privilege_rules (cfg : Config) (s : State) (pte : PTE) (ok : Bool)
    (vaddr type : Nat) :
    (eff_mode s (type == MEM_TYPE_IFETCH) = MODE_U → pte.u = false →
      (∀ b s1, check_permission cfg s pte ok vaddr type ≠ .ret b s1) ∧
      (¬ (type = MEM_TYPE_IFETCH ∧ s.amo = true) →
        ∃ s1, check_permission cfg s pte ok vaddr type = .raise (class_page_fault s type) s1 ∧
          tval_reg s1 (class_page_fault s type) = vaddr)) ∧
    (eff_mode s (type == MEM_TYPE_IFETCH) = MODE_S → type ≠ MEM_TYPE_IFETCH → pte.u = true →
      (s.sum = false →
        ∃ s1, check_permission cfg s pte ok vaddr type = .raise (class_page_fault s type) s1 ∧
          tval_reg s1 (class_page_fault s type) = vaddr) ∧
      (s.sum = true →
        (check_permission cfg s pte ok vaddr type = .ret true s ↔
          (ok && pte.v && cap_ok s pte type && !ad_fault cfg pte type) = true))) ∧
    (eff_mode s (type == MEM_TYPE_IFETCH) = MODE_S → type = MEM_TYPE_IFETCH → pte.u = true →
      (∀ b s1, check_permission cfg s pte ok vaddr type ≠ .ret b s1) ∧
      (s.amo = false →
        ∃ s1, check_permission cfg s pte ok vaddr type = .raise EX_IPF s1 ∧
          tval_reg s1 EX_IPF = vaddr)) := by
  refine ⟨?_, ?_, ?_⟩
  · intro hmode hu
    have hp : priv_ok s pte type = false := by
      unfold priv_ok
      simp [hmode, hu]
    exact check_permission_denied cfg s pte ok vaddr type (Or.inl hmode) (by simp [hp])
  · intro hmode hty hu
    have htb : (type == MEM_TYPE_IFETCH) = false := by simpa using hty
    constructor
    · intro hsum
      have hp : priv_ok s pte type = false := by
        unfold priv_ok
        simp [hmode, hu, hsum]
      exact (check_permission_denied cfg s pte ok vaddr type (Or.inr hmode) (by simp [hp])).2
        (fun h => hty h.1)
    · intro hsum
      have hp : priv_ok s pte type = true := by
        unfold priv_ok
        simp [hmode, hu, hsum, htb, MODE_S, MODE_U]
      rw [check_permission_allowed_iff cfg s pte ok vaddr type (Or.inr hmode), hp]
      simp
  · intro hmode hty hu
    have hmode2 : eff_mode s true = MODE_S := by
      rw [hty] at hmode
      exact hmode
    have hp : priv_ok s pte type = false := by
      unfold priv_ok
      rw [hty]
      simp [hmode2, hu]
    obtain ⟨h1, h2⟩ :=
      check_permission_denied cfg s pte ok vaddr type (Or.inr hmode) (by simp [hp])
    refine ⟨h1, fun hamo => ?_⟩
    have h3 := h2 (fun h => by rw [hamo] at h; cases h.2)
    have e : class_page_fault s type = EX_IPF := by
      unfold class_page_fault; simp [hty]
    rw [e] at h3
    exact h3

/-- Claim C12. Under the hardware-managed update policy (`CONFIG_SHARE` not defined), for every
entry that is valid and passes the privilege rules, with `ok = true` and the effective mode user
or supervisor as the function asserts, `check_permission` returns true if and only if: for a
fetch, the executable bit is set; for a load, the readable bit is set or the executable bit and
the MXR control are both set; for a store or atomic (any other class), the writable bit is set.
In every other case it does not return and raises the class-specific page fault with the
trap-value register equal to `vaddr` (for a fetch, provided the assertion `!cpu.amo` holds). -/
theorem check_permission_capability_rules (cfg : Config) (s : State) (pte : PTE)
    (vaddr type : Nat) (hshare : cfg.share = false)
    (hm : eff_mode s (type == MEM_TYPE_IFETCH) = MODE_U ∨
      eff_mode s (type == MEM_TYPE_IFETCH) = MODE_S)
    (hv : pte.v = true) (hpriv : priv_ok s pte type = true) :
    (type = MEM_TYPE_IFETCH →
      (check_permission cfg s pte true vaddr type = .ret true s ↔ pte.x = true)) ∧
    (type = MEM_TYPE_READ →
      (check_permission cfg s pte true vaddr type = .ret true s ↔
        (pte.r = true ∨ (pte.x = true ∧ s.mxr = true)))) ∧
    (type ≠ MEM_TYPE_IFETCH → type ≠ MEM_TYPE_READ →
      (check_permission cfg s pte true vaddr type = .ret true s ↔ pte.w = true)) ∧
    (check_permission cfg s pte true vaddr type ≠ .ret true s →
      (∀ b s1, check_permission cfg s pte true vaddr type ≠ .ret b s1) ∧
      (¬ (type = MEM_TYPE_IFETCH ∧ s.amo = true) →
        ∃ s1, check_permission cfg s pte true vaddr type =
            .raise (class_page_fault s type) s1 ∧
          tval_reg s1 (class_page_fault s type) = vaddr)) := by
  have hiff := check_permission_allowed_iff cfg s pte true vaddr type hm
  have had : ad_fault cfg pte type = false := by
    unfold ad_fault; rw [hshare]; rfl
  rw [hv, hpriv, had] at hiff
  simp only [Bool.true_and, Bool.not_false, Bool.and_true] at hiff
  refine ⟨?_, ?_, ?_, ?_⟩
  · intro ht
    rw [hiff]
    unfold cap_ok
    simp [ht]
  · intro ht
    rw [hiff]
    unfold cap_ok
    simp [ht, MEM_TYPE_READ, MEM_TYPE_IFETCH]
    tauto
  · intro h1 h2
    rw [hiff]
    unfold cap_ok
    simp [h1, h2]
  · intro hne
    have hc : cap_ok s pte type = false := by
      cases h : cap_ok s pte type
      · rfl
      · exact absurd (hiff.mpr h) hne
    exact check_permission_denied cfg s pte true vaddr type hm (by simp [hc])

/-- Claim C13. In `isa_pmp_check_permission`, when the entry the loop decides on (the
lowest-index configured entry matching a sector) matches all sectors of the access, the result
is true if the effective mode is machine and the lock bit of the entry is clear; otherwise it
is true exactly when the entry has the bit of the access class set: R for `MEM_TYPE_READ`,
`MEM_TYPE_IFETCH_READ` and `MEM_TYPE_WRITE_READ`, W for `MEM_TYPE_WRITE`, X for
`MEM_TYPE_IFETCH`. In particular machine mode is subject to the bits of a locked entry. -/
theorem pmp_full_match_permission (P : PmpRegs) (s : State) (addr len type out_mode i : Nat)
    (hi : i < P.num) (hhit : pmp_hits P addr len i = true)
    (hfirst : ∀ k, k < i → pmp_hits P addr len k = false)
    (hall : pmp_all_match P addr len i (pmp_base P i) = true) :
    (pmp_eff_mode s type out_mode = MODE_M → pmp_cfg P i &&& PMP_L = 0 →
      isa_pmp_check_permission P s addr len type out_mode = true) ∧
    (¬ (pmp_eff_mode s type out_mode = MODE_M ∧ pmp_cfg P i &&& PMP_L = 0) →
      ((type = MEM_TYPE_READ ∨ type = MEM_TYPE_IFETCH_READ ∨ type = MEM_TYPE_WRITE_READ) →
        (isa_pmp_check_permission P s addr len type out_mode = true ↔
          pmp_cfg P i &&& PMP_R ≠ 0)) ∧
      (type = MEM_TYPE_WRITE →
        (isa_pmp_check_permission P s addr len type out_mode = true ↔
          pmp_cfg P i &&& PMP_W ≠ 0)) ∧
      (type = MEM_TYPE_IFETCH →
        (isa_pmp_check_permission P s addr len type out_mode = true ↔
          pmp_cfg P i &&& PMP_X ≠ 0))) := by
  rw [isa_pmp_first_hit P s addr len type out_mode i hi hhit hfirst, hall]
  simp only [if_true]
  unfold pmp_perm
  constructor
  · intro hm hl
    simp [hm, hl]
  · intro hn
    have hn2 : (pmp_eff_mode s type out_mode == MODE_M && (pmp_cfg P i &&& PMP_L) == 0)
        = false := by
      rw [Bool.and_eq_false_iff]
      by_cases h : pmp_eff_mode s type out_mode = MODE_M
      · right
        rw [beq_eq_false_iff_ne]
        exact fun hl => hn ⟨h, hl⟩
      · left
        rw [beq_eq_false_iff_ne]
        exact h
    rw [hn2]
    refine ⟨?_, ?_, ?_⟩
    · intro ht
      rcases ht with ht | ht | ht <;>
        simp [ht, MEM_TYPE_READ, MEM_TYPE_IFETCH_READ, MEM_TYPE_WRITE_READ, MEM_TYPE_WRITE,
          MEM_TYPE_IFETCH]
    · intro ht
      simp [ht, MEM_TYPE_READ, MEM_TYPE_IFETCH_READ, MEM_TYPE_WRITE_READ, MEM_TYPE_WRITE,
          MEM_TYPE_IFETCH]
    · intro ht
      simp [ht, MEM_TYPE_READ, MEM_TYPE_IFETCH_READ, MEM_TYPE_WRITE_READ, MEM_TYPE_WRITE,
          MEM_TYPE_IFETCH]

theorem isa_pmp_no_hit (P : PmpRegs) (s : State) (addr len type out_mode : Nat)
    (hnum : 0 < P.num) (hno : ∀ i, i < P.num → pmp_hits P addr len i = false) :
    isa_pmp_check_permission P s addr len type out_mode =
      (pmp_eff_mode s type out_mode == MODE_M) := by
  unfold isa_pmp_check_permission
  have hn : (P.num == 0) = false := by
    rw [beq_eq_false_iff_ne]; omega
  simp only [hn, Bool.false_eq_true, if_false]
  exact pmp_loop_no_hit P addr len type _ P.num 0 (fun j _ h2 => hno j (by omega))

/-- Claim C14. In `isa_pmp_check_permission`, when at least one PMP entry is configured
(address-matching mode not off) and no configured entry matches any sector of the access, the
access is denied for every effective mode other than machine and allowed for machine mode. -/
theorem pmp_no_match_denies_below_machine (P : PmpRegs) (s : State)
    (addr len type out_mode : Nat)
    (hcfg : ∃ i, i < P.num ∧ pmp_cfg P i &&& PMP_A ≠ 0)
    (hno : ∀ i, i < P.num → pmp_hits P addr len i = false) :
    (pmp_eff_mode s type out_mode ≠ MODE_M →
      isa_pmp_check_permission P s addr len type out_mode = false) ∧
    (pmp_eff_mode s type out_mode = MODE_M →
      isa_pmp_check_permission P s addr len type out_mode = true) := by
  obtain ⟨i, hi, -⟩ := hcfg
  rw [isa_pmp_no_hit P s addr len type out_mode (by omega) hno]
  constructor
  · intro h
    rw [beq_eq_false_iff_ne]
    exact h
  · intro h
    rw [h]
    rfl

/-- Claim C15, counterexample. With sixteen PMP entries that all have address-matching mode
off, a user-mode load is denied: the loop falls through to `return mode == MODE_M`. -/
theorem pmp_all_off_user_denied :
    (∀ i, pmp_cfg (demo_pmp_napot 0) i &&& PMP_A = 0) ∧
    isa_pmp_check_permission (demo_pmp_napot 0) (demo_state (demo_mem 0))
      0x80000000 4 MEM_TYPE_READ MODE_U = false := by
  constructor
  · intro i
    by_cases h : i = 0 <;> simp [pmp_cfg, demo_pmp_napot, h]
  · decide

/-- Claim C15, amended. `isa_pmp_check_permission` returns true for every access and every
effective mode when no PMP entry is implemented (`CONFIG_RV_PMP_NUM == 0`); when entries are
implemented and every one of them has address-matching mode off, it returns true exactly when
the effective mode is machine, so user and supervisor accesses are denied. -/
theorem pmp_all_off_result (P : PmpRegs) (s : State) (addr len type out_mode : Nat) :
    (P.num = 0 → isa_pmp_check_permission P s addr len type out_mode = true) ∧
    (0 < P.num → (∀ i, i < P.num → pmp_cfg P i &&& PMP_A = 0) →
      isa_pmp_check_permission P s addr len type out_mode =
        (pmp_eff_mode s type out_mode == MODE_M)) := by
  constructor
  · intro h
    unfold isa_pmp_check_permission
    simp [h]
  · intro hnum hoff
    apply isa_pmp_no_hit P s addr len type out_mode hnum
    intro i hi
    unfold pmp_hits
    rw [hoff i hi]
    rfl

theorem update_mmu_state_internal_eq (s : State) (ifetch : Bool) :
    update_mmu_state_internal s ifetch =
      if eff_mode s ifetch < MODE_M ∧ s.satp_mode ≠ 0 ∧ s.satp_mode ≠ 8 then none
      else if eff_mode s ifetch < MODE_M ∧ s.satp_mode = 8 then some MMU_TRANSLATE
      else some MMU_DIRECT := by
  unfold update_mmu_state_internal
  by_cases hm : eff_mode s ifetch < MODE_M
  · by_cases h8 : s.satp_mode = 8
    · simp [hm, h8]
    · by_cases h0 : s.satp_mode = 0
      · simp [hm, h0]
      · simp [hm, h0, h8]
  · simp [hm]

/-- The postcondition of `update_mmu_state` in terms of `eff_mode`, the mode expression the
function itself evaluates. -/
theorem update_mmu_state_eff (s : State) :
    (((s.mode < MODE_M ∨ eff_mode s false < MODE_M) ∧ s.satp_mode ≠ 0 ∧ s.satp_mode ≠ 8) →
      update_mmu_state s = .abort) ∧
    (¬ ((s.mode < MODE_M ∨ eff_mode s false < MODE_M) ∧ s.satp_mode ≠ 0 ∧ s.satp_mode ≠ 8) →
      ∃ r s1, update_mmu_state s = .ret r s1 ∧
        s1.ifetch_mmu_state = (if s.mode < MODE_M ∧ s.satp_mode = 8 then MMU_TRANSLATE
          else MMU_DIRECT) ∧
        s1.data_mmu_state = (if eff_mode s false < MODE_M ∧ s.satp_mode = 8 then MMU_TRANSLATE
          else MMU_DIRECT) ∧
        (r = true ↔ s1.data_mmu_state ≠ s.data_mmu_state)) ∧
    (s.mode = MODE_M → s.mprv = false →
      ∃ r s1, update_mmu_state s = .ret r s1 ∧
        s1.ifetch_mmu_state = MMU_DIRECT ∧ s1.data_mmu_state = MMU_DIRECT) := by
  have hf : eff_mode s true = s.mode := by
    unfold eff_mode; simp
  have h2 : ¬ ((s.mode < MODE_M ∨ eff_mode s false < MODE_M) ∧ s.satp_mode ≠ 0 ∧
      s.satp_mode ≠ 8) →
      ∃ r s1, update_mmu_state s = .ret r s1 ∧
        s1.ifetch_mmu_state = (if s.mode < MODE_M ∧ s.satp_mode = 8 then MMU_TRANSLATE
          else MMU_DIRECT) ∧
        s1.data_mmu_state = (if eff_mode s false < MODE_M ∧ s.satp_mode = 8 then MMU_TRANSLATE
          else MMU_DIRECT) ∧
        (r = true ↔ s1.data_mmu_state ≠ s.data_mmu_state) := by
    intro hn
    unfold update_mmu_state
    rw [update_mmu_state_internal_eq s true, hf]
    have c1 : ¬ (s.mode < MODE_M ∧ s.satp_mode ≠ 0 ∧ s.satp_mode ≠ 8) := by tauto
    have c2 : ¬ (eff_mode s false < MODE_M ∧ s.satp_mode ≠ 0 ∧ s.satp_mode ≠ 8) := by tauto
    rw [if_neg c1]
    by_cases ht : s.mode < MODE_M ∧ s.satp_mode = 8
    · rw [if_pos ht]
      simp only
      rw [update_mmu_state_internal_eq]
      have e : eff_mode { s with ifetch_mmu_state := MMU_TRANSLATE } false = eff_mode s false :=
        rfl
      simp only [e]
      rw [if_neg c2]
      by_cases hd : eff_mode s false < MODE_M ∧ s.satp_mode = 8
      · rw [if_pos hd]
        refine ⟨_, _, rfl, ?_, ?_, ?_⟩
        · simp only [if_pos ht]
        · simp only [if_pos hd]
        · simp [Nat.xor_eq_zero]
      · rw [if_neg hd]
        refine ⟨_, _, rfl, ?_, ?_, ?_⟩
        · simp only [if_pos ht]
        · simp only [if_neg hd]
        · simp [Nat.xor_eq_zero]
    · rw [if_neg ht]
      simp only
      rw [update_mmu_state_internal_eq]
      have e : eff_mode { s with ifetch_mmu_state := MMU_DIRECT } false = eff_mode s false :=
        rfl
      simp only [e]
      rw [if_neg c2]
      by_cases hd : eff_mode s false < MODE_M ∧ s.satp_mode = 8
      · rw [if_pos hd]
        refine ⟨_, _, rfl, ?_, ?_, ?_⟩
        · simp only [if_neg ht]
        · simp only [if_pos hd]
        · simp [Nat.xor_eq_zero]
      · rw [if_neg hd]
        refine ⟨_, _, rfl, ?_, ?_, ?_⟩
        · simp only [if_neg ht]
        · simp only [if_neg hd]
        · simp [Nat.xor_eq_zero]
  refine ⟨?_, h2, ?_⟩
  · rintro ⟨hm, h0, h8⟩
    unfold update_mmu_state
    rw [update_mmu_state_internal_eq s true, hf]
    by_cases hi : s.mode < MODE_M
    · simp [hi, h0, h8]
    · have hd : eff_mode s false < MODE_M := by tauto
      simp only [hi, false_and, if_false]
      rw [update_mmu_state_internal_eq]
      have e : eff_mode { s with ifetch_mmu_state := MMU_DIRECT } false = eff_mode s false := rfl
      simp [e, hd, h0, h8]
  · intro hmode hmprv
    have hd : eff_mode s false = MODE_M := by
      unfold eff_mode; simp [hmprv, hmode]
    have hn : ¬ ((s.mode < MODE_M ∨ eff_mode s false < MODE_M) ∧ s.satp_mode ≠ 0 ∧
        s.satp_mode ≠ 8) := by
      rw [hmode, hd]
      simp
    obtain ⟨r, s1, e, hi, hdd, -⟩ := h2 hn
    refine ⟨r, s1, e, ?_, ?_⟩
    · rw [hi, hmode]; simp
    · rw [hdd, hd]; simp

theorem eff_mode_data (s : State) :
    eff_mode s false = (if s.mprv = true then s.mpp else s.mode) := by
  unfold eff_mode
  cases s.mprv <;> rfl

/-- Claim C16. `update_mmu_state` fails an assertion when `satp->mode` is neither 0 nor 8 and
the mode of the fetch class (`cpu.mode`) or of the data class (`mstatus->mpp` when `mprv` is set,
else `cpu.mode`) is below machine. Otherwise it returns, and afterwards the fetch flag is
Translate iff `cpu.mode` is below machine and `satp->mode` is 8 (`mprv` is ignored), the data
flag is Translate iff the data mode (`mstatus->mpp` when `mprv` is set, else `cpu.mode`) is
below machine and `satp->mode` is 8, both are Direct otherwise, and the return value is true
iff the data flag differs from its value before the call. In machine mode with `mprv` clear
both flags are Direct. -/
theorem update_mmu_state_post (s : State) :
    (((s.mode < MODE_M ∨ (if s.mprv = true then s.mpp else s.mode) < MODE_M) ∧
        s.satp_mode ≠ 0 ∧ s.satp_mode ≠ 8) →
      update_mmu_state s = .abort) ∧
    (¬ ((s.mode < MODE_M ∨ (if s.mprv = true then s.mpp else s.mode) < MODE_M) ∧
        s.satp_mode ≠ 0 ∧ s.satp_mode ≠ 8) →
      ∃ r s1, update_mmu_state s = .ret r s1 ∧
        s1.ifetch_mmu_state = (if s.mode < MODE_M ∧ s.satp_mode = 8 then MMU_TRANSLATE
          else MMU_DIRECT) ∧
        s1.data_mmu_state =
          (if (if s.mprv = true then s.mpp else s.mode) < MODE_M ∧ s.satp_mode = 8
            then MMU_TRANSLATE else MMU_DIRECT) ∧
        (r = true ↔ s1.data_mmu_state ≠ s.data_mmu_state)) ∧
    (s.mode = MODE_M → s.mprv = false →
      ∃ r s1, update_mmu_state s = .ret r s1 ∧
        s1.ifetch_mmu_state = MMU_DIRECT ∧ s1.data_mmu_state = MMU_DIRECT) := by
  have h := update_mmu_state_eff s
  rw [eff_mode_data] at h
  exact h

/-- Claim C17, counterexample. With `CONFIG_AC_SOFT` defined and translation bypassed (machine
mode), an 8-byte load at address 1 does not return the cached mode: `isa_mmu_check` raises the
load-address-misaligned fault. -/
theorem isa_mmu_check_bypass_misaligned :
    eff_mode { demo_state (demo_mem 0) with mode := MODE_M } (MEM_TYPE_READ == MEM_TYPE_IFETCH)
      = MODE_M ∧
    isa_mmu_check { share := false, ac_soft := true }
      { demo_state (demo_mem 0) with mode := MODE_M } 1 8 MEM_TYPE_READ =
      .raise EX_LAM (set_tval { demo_state (demo_mem 0) with mode := MODE_M } EX_LAM 1) := by
  constructor
  · decide
  · rfl

/-- Claim C17, amended. When translation is bypassed for the access class (effective mode not
below machine, or `satp->mode` not 8), `isa_mmu_check` skips the canonical-address check: for
every virtual address it raises no page fault; for a fetch, and for a data access unless
`CONFIG_AC_SOFT` is defined and `vaddr & (len - 1)` is non-zero, it returns the cached MMU mode
of that class (Direct or Translate) without recomputing it and leaves the state unchanged; in
the remaining case it raises the load or store address-misaligned fault with the trap-value
register equal to `vaddr`. -/
theorem isa_mmu_check_bypass (cfg : Config) (s : State) (vaddr len type : Nat)
    (hby : ¬ (eff_mode s (type == MEM_TYPE_IFETCH) < MODE_M ∧ s.satp_mode = 8)) :
    (type = MEM_TYPE_IFETCH →
      isa_mmu_check cfg s vaddr len type =
        .ret (if s.ifetch_mmu_state ≠ 0 then MMU_TRANSLATE else MMU_DIRECT) s) ∧
    (type ≠ MEM_TYPE_IFETCH →
      ¬ (cfg.ac_soft = true ∧ vaddr &&& ((len + WORD - 1) % WORD) ≠ 0) →
      isa_mmu_check cfg s vaddr len type =
        .ret (if s.data_mmu_state ≠ 0 then MMU_TRANSLATE else MMU_DIRECT) s) ∧
    (type ≠ MEM_TYPE_IFETCH →
      (cfg.ac_soft = true ∧ vaddr &&& ((len + WORD - 1) % WORD) ≠ 0) →
      ∃ ex s1, isa_mmu_check cfg s vaddr len type = .raise ex s1 ∧
        (ex = EX_SAM ∨ ex = EX_LAM) ∧ tval_reg s1 ex = vaddr) ∧
    (∀ ex s1, isa_mmu_check cfg s vaddr len type = .raise ex s1 →
      ex ≠ EX_IPF ∧ ex ≠ EX_LPF ∧ ex ≠ EX_SPF) := by
  have hvm : (decide (eff_mode s (type == MEM_TYPE_IFETCH) < MODE_M) && s.satp_mode == 8)
      = false := by
    rw [Bool.and_eq_false_iff]
    by_cases h : eff_mode s (type == MEM_TYPE_IFETCH) < MODE_M
    · right
      rw [beq_eq_false_iff_ne]
      exact fun h8 => hby ⟨h, h8⟩
    · left
      simpa using h
  have hmain : isa_mmu_check cfg s vaddr len type =
      if type = MEM_TYPE_IFETCH then
        .ret (if s.ifetch_mmu_state ≠ 0 then MMU_TRANSLATE else MMU_DIRECT) s
      else if cfg.ac_soft = true ∧ vaddr &&& ((len + WORD - 1) % WORD) ≠ 0 then
        .raise (if (s.amo || type == MEM_TYPE_WRITE) = true then EX_SAM else EX_LAM)
          (set_tval s (if (s.amo || type == MEM_TYPE_WRITE) = true then EX_SAM else EX_LAM)
            vaddr)
      else .ret (if s.data_mmu_state ≠ 0 then MMU_TRANSLATE else MMU_DIRECT) s := by
    unfold isa_mmu_check
    simp only [hvm, Bool.not_false, Bool.or_true, Bool.not_true, Bool.false_eq_true, if_false]
    by_cases h1 : type = MEM_TYPE_IFETCH
    · simp [h1]
    · have h1b : (type == MEM_TYPE_IFETCH) = false := by simpa using h1
      simp only [h1b, h1, Bool.false_eq_true, if_false]
      by_cases h2 : cfg.ac_soft = true ∧ vaddr &&& ((len + WORD - 1) % WORD) ≠ 0
      · rw [if_pos h2]
        have : (cfg.ac_soft && vaddr &&& (len + WORD - 1) % WORD != 0) = true := by
          rw [Bool.and_eq_true, bne_iff_ne]
          exact h2
        rw [if_pos this]
      · rw [if_neg h2]
        have : ¬ (cfg.ac_soft && vaddr &&& (len + WORD - 1) % WORD != 0) = true := by
          rw [Bool.and_eq_true, bne_iff_ne]
          exact h2
        rw [if_neg this]
  rw [hmain]
  refine ⟨?_, ?_, ?_, ?_⟩
  · intro h1
    rw [if_pos h1]
  · intro h1 h2
    rw [if_neg h1, if_neg h2]
  · intro h1 h2
    rw [if_neg h1, if_pos h2]
    refine ⟨_, _, rfl, ?_, tval_reg_set_tval _ _ _⟩
    split
    · exact Or.inl rfl
    · exact Or.inr rfl
  · intro ex s1 h
    split_ifs at h with c1 c2 c3
    · cases h
      decide
    · cases h
      decide

theorem testBit_not64 (x i : Nat) (hx : x < 2 ^ 64) :
    (not64 x).testBit i = (decide (i < 64) && !x.testBit i) := by
  have e : not64 x = 2 ^ 64 - (x + 1) := by
    unfold not64 WORD
    rw [Nat.mod_eq_of_lt hx]
    omega
  rw [e, Nat.testBit_two_pow_sub_succ hx]

theorem PGBASE_ppn_testBit (p : PTE) (i : Nat) :
    (PGBASE p.ppn).testBit i =
      (decide (i < 44) && (decide (12 ≤ i) && p.ppn.testBit (i - 12))) := by
  unfold PGBASE PGSHFT
  rw [Nat.testBit_mod_two_pow, Nat.testBit_shiftLeft]

/-- Bits of the value returned by `ptw`: the walk found a leaf at some level `L` (0, 1 or 2)
with physical page number `p`; bits below 12 are zero, bits `[12, 12 + 9 * L)` are those of the
virtual address, bits `[12 + 9 * L, 44)` are those of `p << 12`, and bits at and above 44 are
zero, because `PGBASE` shifts within the 44-bit type of the bit-field. -/
theorem ptw_return_bits (cfg : Config) (s : State) (pte0 : PTE) (vaddr type v : Nat)
    (s1 : State) (hret : ptw cfg s pte0 vaddr type = .ret v s1) :
    ∃ L, L ≤ 2 ∧ walk_reaches s vaddr L ∧ pte_is_leaf (pte_at s vaddr L) = true ∧
      ∀ i, v.testBit i =
        (if i < 12 then false
         else if i < 12 + 9 * L then vaddr.testBit i
         else if i < 44 then ((pte_at s vaddr L).ppn <<< 12).testBit i
         else false) := by
  obtain ⟨L, hL, -, hr, -, hleaf, -, -, -, hv⟩ := ptw_ret_inv cfg s pte0 vaddr type v s1 hret
  refine ⟨L, hL, hr, hleaf, ?_⟩
  intro i
  have hok : MEM_RET_OK = 0 := rfl
  have hsh : ∀ j, ((pte_at s vaddr L).ppn <<< 12).testBit j =
      (decide (12 ≤ j) && (pte_at s vaddr L).ppn.testBit (j - 12)) := by
    intro j
    rw [Nat.testBit_shiftLeft]
  rw [hv, hok, Nat.or_zero, hsh]
  by_cases h0 : 0 < L
  · rw [if_pos h0]
    have hmask : (1 <<< VPNiSHFT L) - 1 = 2 ^ (12 + 9 * L) - 1 := by
      rw [Nat.one_shiftLeft]; rfl
    have hmlt : 2 ^ (12 + 9 * L) - 1 < 2 ^ 64 := by
      have : 2 ^ (12 + 9 * L) ≤ 2 ^ 30 := Nat.pow_le_pow_right (by decide) (by omega)
      omega
    have hpg : PGMASK = 2 ^ 12 - 1 := by decide
    rw [hmask, Nat.testBit_or, Nat.testBit_and, Nat.testBit_and, Nat.testBit_and,
      testBit_not64 _ _ hmlt, hpg, testBit_not64 _ _ (by decide),
      Nat.testBit_two_pow_sub_one, Nat.testBit_two_pow_sub_one, PGBASE_ppn_testBit]
    by_cases c1 : i < 12
    · have c2 : i < 12 + 9 * L := by omega
      have c3 : ¬ 12 ≤ i := by omega
      simp [c1, c2, c3]
    · by_cases c2 : i < 12 + 9 * L
      · have c3 : i < 64 := by omega
        simp [c1, c2, c3]
      · by_cases c4 : i < 44
        · have c3 : i < 64 := by omega
          simp [c1, c2, c3, c4]
        · simp [c1, c2, c4]
  · rw [if_neg h0]
    have hL0 : L = 0 := by omega
    subst hL0
    rw [PGBASE_ppn_testBit]
    by_cases c1 : i < 12
    · have c3 : ¬ 12 ≤ i := by omega
      simp [c1, c3]
    · by_cases c4 : i < 44
      · simp [c1, c4]
      · simp [c1, c4]

/-- Claim C18, evaluation at the failing input. The page number field of an entry is 44 bits
wide, so `p << 12` has up to 56 bits, but `PGBASE(pte.ppn)` shifts inside the 44-bit type of
the bit-field and loses bits 44 to 55. With the level-0 leaf `0x400008000df` (page number
`0x100002000`, all permissions, accessed and dirty set) for virtual page 0, a user load at
`0x10` returns `0x2000000`, whereas `p << 12` is `0x100002000000`: bit 44 of `p << 12` is set
and bit 44 of the returned base is clear. The same happens with that entry as a level-1 leaf:
the load at `0x123456` returns `0x2123000`, in which bit 44 is clear as well. -/
theorem ptw_leaf_base_drops_high_ppn_bits :
    walk_reaches (demo_state (demo_mem 0x400008000df)) 0x10 0 ∧
    pte_is_leaf (pte_at (demo_state (demo_mem 0x400008000df)) 0x10 0) = true ∧
    (pte_at (demo_state (demo_mem 0x400008000df)) 0x10 0).ppn = 0x100002000 ∧
    0x100002000 <<< 12 = 0x100002000000 ∧
    ptw cfg_hw (demo_state (demo_mem 0x400008000df)) ⟨0⟩ 0x10 MEM_TYPE_READ =
      .ret 0x2000000 (demo_state (demo_mem 0x400008000df)) ∧
    (0x100002000 <<< 12).testBit 44 = true ∧
    (0x2000000 : Nat).testBit 44 = false ∧
    walk_reaches (demo_state (demo_mem1 0x400008000df)) 0x123456 1 ∧
    pte_is_leaf (pte_at (demo_state (demo_mem1 0x400008000df)) 0x123456 1) = true ∧
    (pte_at (demo_state (demo_mem1 0x400008000df)) 0x123456 1).ppn = 0x100002000 ∧
    ptw cfg_hw (demo_state (demo_mem1 0x400008000df)) ⟨0⟩ 0x123456 MEM_TYPE_READ =
      .ret 0x2123000 (demo_state (demo_mem1 0x400008000df)) ∧
    (0x2123000 : Nat).testBit 44 = false :=
  ⟨by decide, by decide, by decide, by decide, rfl, by decide, by decide, by decide, by decide,
   by decide, rfl, by decide⟩

/-- Claim C19, evaluation at the failing input. In `isa_spmp_check_permission` the lower bound
of a TOR entry depends on the address-matching mode of the entry before it: with entry 0 an
NA4 entry at `0x1000` that does not match and entry 1 a TOR entry with bound `0x2000` and no
permission, a user load at `0x800` is matched by entry 1 with the stale lower bound 0 and
denied, although with lower bound `0x1000` entry 1 does not match; with entry 0 switched off
and all address registers unchanged the same access is allowed. -/
theorem spmp_tor_base_depends_on_previous_mode :
    address_matching 0 0x800 4 0x400 SPMP_NA4 = 0 ∧
    address_matching ((0x400 <<< SPMP_SHIFT) % WORD) 0x800 4 0x800 SPMP_TOR = 0 ∧
    address_matching 0 0x800 4 0x800 SPMP_TOR = 2 ∧
    isa_spmp_check_permission (demo_spmp_two 0x400 0x10 0x800 0x08) (demo_state (demo_mem 0))
      0x800 4 MEM_TYPE_READ MODE_U = false ∧
    isa_spmp_check_permission (demo_spmp_two 0x400 0x00 0x800 0x08) (demo_state (demo_mem 0))
      0x800 4 MEM_TYPE_READ MODE_U = true := by
  decide

/-- Claim C20, evaluation at the failing input. The address register `0x200001ff` ends in a 0
followed by 9 ones and encodes the block `[0x80000000, 0x80001000)`; `napot_decode` rejects
`0x80000ffc`, which lies in the block, and accepts `0x80000ff8`: the last 4-byte word of the
block is left out. -/
theorem napot_decode_excludes_last_word :
    0x200001ff = 2 ^ (9 + 1) * 0x80000 + (2 ^ 9 - 1) ∧
    (2 ^ (9 + 3) * 0x80000 ≤ 0x80000ffc ∧ 0x80000ffc < 2 ^ (9 + 3) * 0x80000 + 2 ^ (9 + 3)) ∧
    napot_decode 0x80000ffc 0x200001ff = false ∧
    napot_decode 0x80000ff8 0x200001ff = true := by
  decide

theorem check_permission_privilege_rules_witness :
    (∃ s1, check_permission cfg_hw (demo_state (demo_mem 0)) ⟨0xcf⟩ true 0x10 MEM_TYPE_READ =
        .raise EX_LPF s1 ∧ tval_reg s1 EX_LPF = 0x10) ∧
    (∃ s1, check_permission cfg_hw { demo_state (demo_mem 0) with mode := MODE_S } ⟨0xdf⟩ true
        0x10 MEM_TYPE_WRITE = .raise EX_SPF s1 ∧ tval_reg s1 EX_SPF = 0x10) ∧
    check_permission cfg_hw { demo_state (demo_mem 0) with mode := MODE_S, sum := true } ⟨0xdf⟩
        true 0x10 MEM_TYPE_WRITE =
      .ret true { demo_state (demo_mem 0) with mode := MODE_S, sum := true } ∧
    (∃ s1, check_permission cfg_hw { demo_state (demo_mem 0) with mode := MODE_S, sum := true }
        ⟨0xdf⟩ true 0x10 MEM_TYPE_IFETCH = .raise EX_IPF s1 ∧ tval_reg s1 EX_IPF = 0x10) :=
  ⟨((check_permission_privilege_rules cfg_hw (demo_state (demo_mem 0)) ⟨0xcf⟩ true 0x10
      MEM_TYPE_READ).1 rfl (by decide)).2 (by decide),
   ((check_permission_privilege_rules cfg_hw { demo_state (demo_mem 0) with mode := MODE_S }
      ⟨0xdf⟩ true 0x10 MEM_TYPE_WRITE).2.1 rfl (by decide) (by decide)).1 rfl,
   (((check_permission_privilege_rules cfg_hw
      { demo_state (demo_mem 0) with mode := MODE_S, sum := true }
      ⟨0xdf⟩ true 0x10 MEM_TYPE_WRITE).2.1 rfl (by decide) (by decide)).2 rfl).mpr (by decide),
   ((check_permission_privilege_rules cfg_hw
      { demo_state (demo_mem 0) with mode := MODE_S, sum := true }
      ⟨0xdf⟩ true 0x10 MEM_TYPE_IFETCH).2.2 rfl rfl (by decide)).2 rfl⟩

theorem check_permission_capability_rules_witness :
    check_permission cfg_hw (demo_state (demo_mem 0)) ⟨0x59⟩ true 0x10 MEM_TYPE_IFETCH =
      .ret true (demo_state (demo_mem 0)) ∧
    (∃ s1, check_permission cfg_hw (demo_state (demo_mem 0)) ⟨0x59⟩ true 0x10 MEM_TYPE_READ =
        .raise EX_LPF s1 ∧ tval_reg s1 EX_LPF = 0x10) ∧
    check_permission cfg_hw { demo_state (demo_mem 0) with mxr := true } ⟨0x59⟩ true 0x10
        MEM_TYPE_READ = .ret true { demo_state (demo_mem 0) with mxr := true } :=
  ⟨((check_permission_capability_rules cfg_hw (demo_state (demo_mem 0)) ⟨0x59⟩ 0x10
      MEM_TYPE_IFETCH rfl (Or.inl rfl) (by decide) (by decide)).1 rfl).mpr (by decide),
   ((check_permission_capability_rules cfg_hw (demo_state (demo_mem 0)) ⟨0x59⟩ 0x10
      MEM_TYPE_READ rfl (Or.inl rfl) (by decide) (by decide)).2.2.2
        (fun h => absurd
          (((check_permission_capability_rules cfg_hw (demo_state (demo_mem 0)) ⟨0x59⟩ 0x10
            MEM_TYPE_READ rfl (Or.inl rfl) (by decide) (by decide)).2.1 rfl).mp h)
          (by decide))).2 (by decide),
   ((check_permission_capability_rules cfg_hw { demo_state (demo_mem 0) with mxr := true }
      ⟨0x59⟩ 0x10 MEM_TYPE_READ rfl (Or.inl rfl) (by decide) (by decide)).2.1 rfl).mpr
        (by decide)⟩

theorem pmp_full_match_permission_witness :
    pmp_eff_mode { demo_state (demo_mem 0) with mode := MODE_M } MEM_TYPE_IFETCH MODE_M
      = MODE_M ∧
    isa_pmp_check_permission (demo_pmp_napot 0x9b)
      { demo_state (demo_mem 0) with mode := MODE_M } 0x80000000 4 MEM_TYPE_IFETCH MODE_M
      = false ∧
    isa_pmp_check_permission (demo_pmp_napot 0x9b)
      { demo_state (demo_mem 0) with mode := MODE_M } 0x80000000 4 MEM_TYPE_READ MODE_M
      = true ∧
    isa_pmp_check_permission (demo_pmp_napot 0x1b)
      { demo_state (demo_mem 0) with mode := MODE_M } 0x80000000 4 MEM_TYPE_IFETCH MODE_M
      = true :=
  ⟨by decide,
   by
    have h := ((pmp_full_match_permission (demo_pmp_napot 0x9b)
      { demo_state (demo_mem 0) with mode := MODE_M } 0x80000000 4 MEM_TYPE_IFETCH MODE_M 0
      (by decide) (by decide) (fun k hk => absurd hk (by omega)) (by decide)).2
        (by decide)).2.2 rfl
    exact Bool.eq_false_iff.mpr (fun ht => absurd (h.mp ht) (by decide)),
   (((pmp_full_match_permission (demo_pmp_napot 0x9b)
      { demo_state (demo_mem 0) with mode := MODE_M } 0x80000000 4 MEM_TYPE_READ MODE_M 0
      (by decide) (by decide) (fun k hk => absurd hk (by omega)) (by decide)).2
        (by decide)).1 (Or.inl rfl)).mpr (by decide),
   (pmp_full_match_permission (demo_pmp_napot 0x1b)
      { demo_state (demo_mem 0) with mode := MODE_M } 0x80000000 4 MEM_TYPE_IFETCH MODE_M 0
      (by decide) (by decide) (fun k hk => absurd hk (by omega)) (by decide)).1 rfl
        (by decide)⟩

theorem pmp_no_match_denies_below_machine_witness :
    isa_pmp_check_permission (demo_pmp_napot 0x1b) (demo_state (demo_mem 0))
      0x1000 4 MEM_TYPE_READ MODE_U = false ∧
    isa_pmp_check_permission (demo_pmp_napot 0x1b) (demo_state (demo_mem 0))
      0x1000 4 MEM_TYPE_READ MODE_S = false ∧
    isa_pmp_check_permission (demo_pmp_napot 0x1b)
      { demo_state (demo_mem 0) with mode := MODE_M } 0x1000 4 MEM_TYPE_READ MODE_M = true :=
  ⟨(pmp_no_match_denies_below_machine (demo_pmp_napot 0x1b) (demo_state (demo_mem 0))
      0x1000 4 MEM_TYPE_READ MODE_U ⟨0, by decide, by decide⟩ (by decide)).1 (by decide),
   (pmp_no_match_denies_below_machine (demo_pmp_napot 0x1b) (demo_state (demo_mem 0))
      0x1000 4 MEM_TYPE_READ MODE_S ⟨0, by decide, by decide⟩ (by decide)).1 (by decide),
   (pmp_no_match_denies_below_machine (demo_pmp_napot 0x1b)
      { demo_state (demo_mem 0) with mode := MODE_M }
      0x1000 4 MEM_TYPE_READ MODE_M ⟨0, by decide, by decide⟩ (by decide)).2 (by decide)⟩

theorem pmp_all_off_result_witness :
    isa_pmp_check_permission { demo_pmp_napot 0x1b with num := 0 } (demo_state (demo_mem 0))
      0x1000 4 MEM_TYPE_READ MODE_U = true ∧
    isa_pmp_check_permission (demo_pmp_napot 0) (demo_state (demo_mem 0))
      0x1000 4 MEM_TYPE_READ MODE_S = false ∧
    isa_pmp_check_permission (demo_pmp_napot 0)
      { demo_state (demo_mem 0) with mode := MODE_M } 0x1000 4 MEM_TYPE_READ MODE_M = true :=
  ⟨(pmp_all_off_result { demo_pmp_napot 0x1b with num := 0 } (demo_state (demo_mem 0))
      0x1000 4 MEM_TYPE_READ MODE_U).1 rfl,
   (pmp_all_off_result (demo_pmp_napot 0) (demo_state (demo_mem 0))
      0x1000 4 MEM_TYPE_READ MODE_S).2 (by decide) (by decide),
   (pmp_all_off_result (demo_pmp_napot 0) { demo_state (demo_mem 0) with mode := MODE_M }
      0x1000 4 MEM_TYPE_READ MODE_M).2 (by decide) (by decide)⟩

theorem update_mmu_state_post_witness :
    update_mmu_state { demo_state (demo_mem 0) with satp_mode := 9 } = .abort ∧
    (∃ r s1, update_mmu_state { demo_state (demo_mem 0) with data_mmu_state := MMU_DIRECT }
        = .ret r s1 ∧
      s1.ifetch_mmu_state = MMU_TRANSLATE ∧ s1.data_mmu_state = MMU_TRANSLATE ∧
      (r = true ↔ s1.data_mmu_state ≠ MMU_DIRECT)) ∧
    (∃ r s1, update_mmu_state { demo_state (demo_mem 0) with mode := MODE_M } = .ret r s1 ∧
      s1.ifetch_mmu_state = MMU_DIRECT ∧ s1.data_mmu_state = MMU_DIRECT) ∧
    (∃ r s1, update_mmu_state
        { demo_state (demo_mem 0) with mode := MODE_M, mprv := true, mpp := MODE_U }
        = .ret r s1 ∧
      s1.ifetch_mmu_state = MMU_DIRECT ∧ s1.data_mmu_state = MMU_TRANSLATE ∧
      (r = true ↔ s1.data_mmu_state ≠ MMU_TRANSLATE)) ∧
    (∃ r s1, update_mmu_state
        { demo_state (demo_mem 0) with mode := MODE_U, mprv := true, mpp := MODE_M,
                                       data_mmu_state := MMU_TRANSLATE }
        = .ret r s1 ∧
      s1.ifetch_mmu_state = MMU_TRANSLATE ∧ s1.data_mmu_state = MMU_DIRECT ∧
      (r = true ↔ s1.data_mmu_state ≠ MMU_TRANSLATE)) ∧
    update_mmu_state
      { demo_state (demo_mem 0) with mode := MODE_M, mprv := true, mpp := MODE_U,
                                     satp_mode := 9 } = .abort :=
  ⟨(update_mmu_state_post { demo_state (demo_mem 0) with satp_mode := 9 }).1 (by decide),
   (update_mmu_state_post { demo_state (demo_mem 0) with data_mmu_state := MMU_DIRECT }).2.1
      (by decide),
   (update_mmu_state_post { demo_state (demo_mem 0) with mode := MODE_M }).2.2 rfl rfl,
   (update_mmu_state_post
      { demo_state (demo_mem 0) with mode := MODE_M, mprv := true, mpp := MODE_U }).2.1
      (by decide),
   (update_mmu_state_post
      { demo_state (demo_mem 0) with mode := MODE_U, mprv := true, mpp := MODE_M,
                                     data_mmu_state := MMU_TRANSLATE }).2.1
      (by decide),
   (update_mmu_state_post
      { demo_state (demo_mem 0) with mode := MODE_M, mprv := true, mpp := MODE_U,
                                     satp_mode := 9 }).1 (by decide)⟩

theorem isa_mmu_check_bypass_witness :
    isa_mmu_check cfg_hw { demo_state (demo_mem 0) with mode := MODE_M } (2 ^ 39) 4
      MEM_TYPE_IFETCH = .ret MMU_TRANSLATE { demo_state (demo_mem 0) with mode := MODE_M } ∧
    isa_mmu_check cfg_hw { demo_state (demo_mem 0) with satp_mode := 0 } (2 ^ 39) 8
      MEM_TYPE_WRITE = .ret MMU_TRANSLATE { demo_state (demo_mem 0) with satp_mode := 0 } :=
  ⟨(isa_mmu_check_bypass cfg_hw { demo_state (demo_mem 0) with mode := MODE_M } (2 ^ 39) 4
      MEM_TYPE_IFETCH (by decide)).1 rfl,
   (isa_mmu_check_bypass cfg_hw { demo_state (demo_mem 0) with satp_mode := 0 } (2 ^ 39) 8
      MEM_TYPE_WRITE (by decide)).2.1 (by decide) (by decide)⟩

theorem ptw_return_bits_instance :
    ptw cfg_hw (demo_state (demo_mem1 0x8000df)) ⟨0⟩ 0x123456 MEM_TYPE_READ =
      .ret 0x2123000 (demo_state (demo_mem1 0x8000df)) ∧
    ∃ L, L ≤ 2 ∧ walk_reaches (demo_state (demo_mem1 0x8000df)) 0x123456 L ∧
      pte_is_leaf (pte_at (demo_state (demo_mem1 0x8000df)) 0x123456 L) = true ∧
      ∀ i, (0x2123000 : Nat).testBit i =
        (if i < 12 then false
         else if i < 12 + 9 * L then (0x123456 : Nat).testBit i
         else if i < 44 then
           ((pte_at (demo_state (demo_mem1 0x8000df)) 0x123456 L).ppn <<< 12).testBit i
         else false) :=
  ⟨rfl,
   ptw_return_bits cfg_hw (demo_state (demo_mem1 0x8000df)) ⟨0⟩ 0x123456 MEM_TYPE_READ
      0x2123000 (demo_state (demo_mem1 0x8000df)) rfl⟩

/-! ## Region matching, the fault injector and write-back -/

/-- Claim C21, evaluation at the failing inputs. `address_matching` gives result 1 (half in the
region) to accesses that lie entirely inside the region: the 4-byte access `[0xffc, 0x1000)`
against the TOR region `[0, 0x1000)`, and the 4-byte access at `0x1000` against the NA4 region
at `0x1000`; only an access ending before the bound, such as `[0xff8, 0xffc)`, gets result 2.
`isa_spmp_check_permission` therefore denies both accesses although the entry grants read,
write and execute to user mode. -/
theorem address_matching_inside_region_is_result_1 :
    address_matching 0 0xffc 4 0x400 SPMP_TOR = 1 ∧
    address_matching 0 0x1000 4 0x400 SPMP_NA4 = 1 ∧
    address_matching 0 0xff8 4 0x400 SPMP_TOR = 2 ∧
    isa_spmp_check_permission (demo_spmp 0x0f) (demo_state (demo_mem 0))
      0xffc 4 MEM_TYPE_READ MODE_U = false ∧
    isa_spmp_check_permission (demo_spmp 0x0f) (demo_state (demo_mem 0))
      0xff8 4 MEM_TYPE_READ MODE_U = true ∧
    isa_spmp_check_permission (demo_spmp 0x17) (demo_state (demo_mem 0))
      0x1000 4 MEM_TYPE_READ MODE_U = false := by
  decide

theorem isa_pmp_check_permission_eff (P : PmpRegs) (s t : State)
    (addr len type out_mode out_mode2 : Nat)
    (h : pmp_eff_mode s type out_mode = pmp_eff_mode t type out_mode2) :
    isa_pmp_check_permission P s addr len type out_mode =
      isa_pmp_check_permission P t addr len type out_mode2 := by
  unfold isa_pmp_check_permission
  rw [h]

/-- Claim C23. The effective mode used by `isa_pmp_check_permission` is `out_mode` itself when
`out_mode` is not machine; when `out_mode` is machine it is `mstatus->mpp` if `mprv` is set and
the access is not a fetch, and `cpu.mode` otherwise. Hence a machine-mode data access with
`mprv` set and `mpp` below machine is checked exactly like an access with `out_mode = mpp` (no
machine-mode bypass), and the result for a fetch does not depend on `mprv`. -/
theorem pmp_effective_mode (P : PmpRegs) (s : State) (addr len type out_mode : Nat) :
    (out_mode ≠ MODE_M → pmp_eff_mode s type out_mode = out_mode) ∧
    (out_mode = MODE_M → s.mprv = true → type ≠ MEM_TYPE_IFETCH →
      pmp_eff_mode s type out_mode = s.mpp) ∧
    (out_mode = MODE_M → ¬ (s.mprv = true ∧ type ≠ MEM_TYPE_IFETCH) →
      pmp_eff_mode s type out_mode = s.mode) ∧
    (s.mprv = true → type ≠ MEM_TYPE_IFETCH → s.mpp ≠ MODE_M →
      isa_pmp_check_permission P s addr len type MODE_M =
        isa_pmp_check_permission P s addr len type s.mpp) ∧
    (∀ b, isa_pmp_check_permission P { s with mprv := b } addr len MEM_TYPE_IFETCH out_mode =
      isa_pmp_check_permission P s addr len MEM_TYPE_IFETCH out_mode) := by
  have h1 : out_mode ≠ MODE_M → pmp_eff_mode s type out_mode = out_mode := by
    intro h
    unfold pmp_eff_mode
    have : (out_mode == MODE_M) = false := by rw [beq_eq_false_iff_ne]; exact h
    simp [this]
  have h2 : ∀ om, om = MODE_M → s.mprv = true → type ≠ MEM_TYPE_IFETCH →
      pmp_eff_mode s type om = s.mpp := by
    intro om h hm ht
    unfold pmp_eff_mode
    have htb : (type == MEM_TYPE_IFETCH) = false := by rw [beq_eq_false_iff_ne]; exact ht
    simp [h, hm, htb]
  refine ⟨h1, h2 out_mode, ?_, ?_, ?_⟩
  · intro h hn
    unfold pmp_eff_mode
    by_cases ht : type = MEM_TYPE_IFETCH
    · simp [h, ht]
    · have hm : s.mprv = false := by
        cases hb : s.mprv
        · rfl
        · exact absurd ⟨hb, ht⟩ hn
      simp [h, hm]
  · intro hm ht hpp
    apply isa_pmp_check_permission_eff
    rw [h2 MODE_M rfl hm ht]
    unfold pmp_eff_mode
    have : (s.mpp == MODE_M) = false := by rw [beq_eq_false_iff_ne]; exact hpp
    simp [this]
  · intro b
    apply isa_pmp_check_permission_eff
    unfold pmp_eff_mode
    simp

/-- What the recorder holds for class `type` after `n` requests of a run at `vaddr`. -/
theorem record_step_same (r : PfRecord) (vaddr type n : Nat)
    (h : (n = 0 ∧ run_starts r vaddr type) ∨
      (0 < n ∧ r.last_addr type = vaddr ∧ r.force_count type = n % 2 ^ 32)) :
    (force_raise_pf_record r vaddr type).2.last_addr type = vaddr ∧
    (force_raise_pf_record r vaddr type).2.force_count type = (n + 1) % 2 ^ 32 ∧
    (force_raise_pf_record r vaddr type).1 = ((n + 1) % 2 ^ 32 == 5) := by
  unfold force_raise_pf_record
  rcases h with ⟨h0, hs⟩ | ⟨hpos, hl, hc⟩
  · subst h0
    rcases hs with hne | hz
    · have hne2 : vaddr ≠ r.last_addr type := fun e => hne e.symm
      simp [hne2]
    · by_cases he : vaddr = r.last_addr type
      · simp [he, hz]
      · simp [he]
  · have he : ¬ vaddr ≠ r.last_addr type := by simp [hl]
    simp only [he, if_false, if_true]
    refine ⟨hl, ?_, ?_⟩
    · rw [hc]; omega
    · rw [hc]
      have e : (n % 2 ^ 32 + 1) % 2 ^ 32 = (n + 1) % 2 ^ 32 := by omega
      rw [e]

theorem record_step_other (r : PfRecord) (v t type : Nat) (ht : t ≠ type) :
    (force_raise_pf_record r v t).2.last_addr type = r.last_addr type ∧
    (force_raise_pf_record r v t).2.force_count type = r.force_count type := by
  have hne : ¬ type = t := fun e => ht e.symm
  unfold force_raise_pf_record
  by_cases he : v = r.last_addr t
  · simp [he, hne]
  · simp [he, hne]

theorem record_all_run (vaddr type : Nat) (pre : List (Nat × Nat)) :
    ∀ (r : PfRecord) (n : Nat),
      ((n = 0 ∧ run_starts r vaddr type) ∨
        (0 < n ∧ r.last_addr type = vaddr ∧ r.force_count type = n % 2 ^ 32)) →
      (∀ q ∈ pre, q.2 = type → q.1 = vaddr) →
      ((n + count_class type pre = 0 ∧ run_starts (record_all r pre) vaddr type) ∨
        (0 < n + count_class type pre ∧ (record_all r pre).last_addr type = vaddr ∧
          (record_all r pre).force_count type = (n + count_class type pre) % 2 ^ 32)) := by
  induction pre with
  | nil =>
    intro r n h _
    simpa [count_class, record_all] using h
  | cons q qs ih =>
    intro r n h hsame
    have hqs : ∀ q1 ∈ qs, q1.2 = type → q1.1 = vaddr :=
      fun q1 hq1 => hsame q1 (List.mem_cons_of_mem _ hq1)
    by_cases hq : q.2 = type
    · have hv : q.1 = vaddr := hsame q (List.mem_cons_self _ _) hq
      have hc : count_class type (q :: qs) = count_class type qs + 1 := by
        simp [count_class, hq]
      obtain ⟨h1, h2, -⟩ := record_step_same r vaddr type n h
      have := ih (force_raise_pf_record r vaddr type).2 (n + 1)
        (Or.inr ⟨by omega, h1, h2⟩) hqs
      rw [hc]
      have e : n + (count_class type qs + 1) = n + 1 + count_class type qs := by omega
      rw [e]
      show _ ∨ _
      unfold record_all
      rw [hv, hq]
      exact this
    · have hc : count_class type (q :: qs) = count_class type qs := by
        simp [count_class, hq]
      obtain ⟨h1, h2⟩ := record_step_other r q.1 q.2 type hq
      have hinv : (n = 0 ∧ run_starts (force_raise_pf_record r q.1 q.2).2 vaddr type) ∨
          (0 < n ∧ (force_raise_pf_record r q.1 q.2).2.last_addr type = vaddr ∧
            (force_raise_pf_record r q.1 q.2).2.force_count type = n % 2 ^ 32) := by
        unfold run_starts
        rw [h1, h2]
        exact h
      have := ih (force_raise_pf_record r q.1 q.2).2 n hinv hqs
      rw [hc]
      show _ ∨ _
      unfold record_all
      exact this

theorem force_raise_pf_inactive (g : Guide) (r : PfRecord) (s : State) (vaddr type : Nat)
    (h : ¬ (g.guided_exec = true ∧ g.force_raise_exception = true)) :
    force_raise_pf g r s vaddr type = .ret MEM_RET_OK r s := by
  unfold force_raise_pf
  have : (g.guided_exec && g.force_raise_exception) = false := by
    rw [Bool.and_eq_false_iff]
    cases h1 : g.guided_exec
    · exact Or.inl rfl
    · cases h2 : g.force_raise_exception
      · exact Or.inr rfl
      · exact absurd ⟨h1, h2⟩ h
  simp [this]

theorem force_raise_pf_suppressed (g : Guide) (r : PfRecord) (s : State) (vaddr type : Nat)
    (h : (force_raise_pf_record r vaddr type).1 = true) :
    ∃ r1, force_raise_pf g r s vaddr type = .ret MEM_RET_OK r1 s := by
  unfold force_raise_pf
  simp only [h, if_true]
  split_ifs <;> exact ⟨_, rfl⟩

/-- Claim C22. `force_raise_pf_record` keeps one counter per access class. Starting where a run
of class `type` at `vaddr` starts, after any sequence `pre` of requests in which every request
of that class is at `vaddr` (requests of other classes are arbitrary), the next request of the
class at `vaddr`, the `k`-th of the run with `k = count_class type pre + 1` (below `2 ^ 31`, the
range of the `int` counter), is reported as suppressed if and only if `k = 5`, and then
`force_raise_pf` returns `MEM_RET_OK` without raising and with the machine state unchanged. A
request of the class at another address starts a new run; a request of another class changes
neither the counter nor the last address of the class. When `cpu.guided_exec` and
`force_raise_exception` are not both set, `force_raise_pf` returns `MEM_RET_OK` and changes
nothing. -/
theorem force_raise_pf_rate_limit (g : Guide) (s : State) (r : PfRecord) (vaddr type : Nat)
    (pre : List (Nat × Nat))
    (hstart : run_starts r vaddr type)
    (hsame : ∀ q ∈ pre, q.2 = type → q.1 = vaddr)
    (hk : count_class type pre + 1 < 2 ^ 31) :
    ((force_raise_pf_record (record_all r pre) vaddr type).1 = true ↔
      count_class type pre + 1 = 5) ∧
    ((force_raise_pf_record (record_all r pre) vaddr type).1 = true →
      ∃ r1, force_raise_pf g (record_all r pre) s vaddr type = .ret MEM_RET_OK r1 s) ∧
    (∀ r0 b, b ≠ vaddr → run_starts (force_raise_pf_record r0 b type).2 vaddr type) ∧
    (∀ r0 v t, t ≠ type →
      (force_raise_pf_record r0 v t).2.last_addr type = r0.last_addr type ∧
      (force_raise_pf_record r0 v t).2.force_count type = r0.force_count type) ∧
    (¬ (g.guided_exec = true ∧ g.force_raise_exception = true) →
      ∀ r0, force_raise_pf g r0 s vaddr type = .ret MEM_RET_OK r0 s) := by
  refine ⟨?_, ?_, ?_, ?_, ?_⟩
  · have hinv := record_all_run vaddr type pre r 0 (Or.inl ⟨rfl, hstart⟩) hsame
    rw [Nat.zero_add] at hinv
    obtain ⟨-, -, h3⟩ := record_step_same (record_all r pre) vaddr type _ hinv
    rw [h3, Nat.mod_eq_of_lt (by omega)]
    simp
  · exact force_raise_pf_suppressed g _ s vaddr type
  · intro r0 b hb
    left
    unfold force_raise_pf_record
    by_cases he : b = r0.last_addr type
    · simp [he]
      rw [← he]; exact hb
    · simp [he]
      exact hb
  · intro r0 v t ht
    exact record_step_other r0 v t type ht
  · intro h r0
    exact force_raise_pf_inactive g r0 s vaddr type h

theorem set_tval_mem (s : State) (ex v : Nat) : (set_tval s ex v).mem = s.mem := by
  unfold set_tval
  split <;> rfl

theorem check_permission_raise_mem (cfg : Config) (s : State) (pte : PTE) (ok : Bool)
    (vaddr type ex : Nat) (s1 : State)
    (h : check_permission cfg s pte ok vaddr type = .raise ex s1) : s1.mem = s.mem := by
  unfold check_permission at h
  simp only at h
  split_ifs at h <;> cases h <;> simp [set_tval_mem]

theorem ptw_bad_raise_mem (cfg : Config) (s : State) (P : PTE) (vaddr type ex : Nat)
    (s1 : State) (h : ptw_bad cfg s P vaddr type = .raise ex s1) : s1.mem = s.mem := by
  unfold ptw_bad at h
  cases hcp : check_permission cfg s P false vaddr type with
  | abort => rw [hcp] at h; cases h
  | ret b s2 => rw [hcp] at h; cases h
  | raise ex2 s2 =>
    rw [hcp] at h
    cases h
    exact check_permission_raise_mem _ _ _ _ _ _ _ _ hcp

theorem ptw_raise_mem (cfg : Config) (s : State) (pte0 : PTE) (vaddr type ex : Nat)
    (s1 : State) (h : ptw cfg s pte0 vaddr type = .raise ex s1) : s1.mem = s.mem := by
  unfold ptw at h
  by_cases hc : sext39 vaddr = vaddr
  swap
  · simp only [hc, ne_eq, not_false_eq_true, if_true] at h
    exact ptw_bad_raise_mem _ _ _ _ _ _ _ h
  simp only [hc, ne_eq, not_true_eq_false, if_false] at h
  generalize walk s vaddr type (PTW_LEVEL - 1) (PGBASE (s.satp_ppn % 2 ^ 44)) [] = wr at h
  cases hx : wr.exit
  · simp only [hx] at h
    cases hcp : check_permission cfg s wr.pte true vaddr type with
    | abort => rw [hcp] at h; cases h
    | raise ex2 s2 =>
      rw [hcp] at h
      cases h
      exact check_permission_raise_mem _ _ _ _ _ _ _ _ hcp
    | ret b s2 =>
      obtain ⟨hb, hs, -⟩ := check_permission_ret _ _ _ _ _ _ _ _ hcp
      subst hb; subst hs
      rw [hcp] at h
      simp only at h
      split_ifs at h
      exact ptw_bad_raise_mem _ _ _ _ _ _ _ h
  · simp only [hx] at h
    exact ptw_bad_raise_mem _ _ _ _ _ _ _ h
  · simp only [hx] at h
    exact ptw_bad_raise_mem _ _ _ _ _ _ _ h

theorem ptw_update_ad_other (s : State) (pte : PTE) (p type a : Nat) (ha : a ≠ p) :
    (ptw_update_ad s pte p type).mem a = s.mem a := by
  unfold ptw_update_ad paddr_write
  simp only
  split_ifs <;> simp [ha]

theorem ptw_update_ad_unchanged (s : State) (pte : PTE) (p type : Nat)
    (h : ¬ (pte.a = false ∨ (pte.d = false ∧ type = MEM_TYPE_WRITE))) :
    ptw_update_ad s pte p type = s := by
  unfold ptw_update_ad
  have ha : pte.a = true := by
    cases e : pte.a
    · exact absurd (Or.inl e) h
    · rfl
  have hd : ¬ (pte.d = false ∧ type = MEM_TYPE_WRITE) := fun e => h (Or.inr e)
  have hcond : (!pte.a || (!pte.d && type == MEM_TYPE_WRITE)) = false := by
    rw [ha]
    cases e : pte.d
    · have : ¬ type = MEM_TYPE_WRITE := fun t => hd ⟨e, t⟩
      simp [this]
    · simp
  simp [hcond]

/-- Claim C24. `ptw` leaves page-table memory alone on failure: whenever it raises a fault the
backing store is that of the entry state, and it never returns the failure marker
`MEM_RET_FAIL`. When it returns (a successful translation through a leaf at some level `L`), the
state is unchanged under the exception-based policy and also whenever the leaf has accessed
set and has dirty set or the access is not a store; in every case no location other than the
leaf entry is written. -/
theorem ptw_writes_only_on_success (cfg : Config) (s : State) (pte0 : PTE) (vaddr type : Nat) :
    (∀ ex s1, ptw cfg s pte0 vaddr type = .raise ex s1 → s1.mem = s.mem) ∧
    (∀ s1, ptw cfg s pte0 vaddr type ≠ .ret MEM_RET_FAIL s1) ∧
    (∀ v s1, ptw cfg s pte0 vaddr type = .ret v s1 →
      ∃ L, L ≤ 2 ∧ walk_reaches s vaddr L ∧ pte_is_leaf (pte_at s vaddr L) = true ∧
        (cfg.share = true → s1 = s) ∧
        (¬ ((pte_at s vaddr L).a = false ∨
            ((pte_at s vaddr L).d = false ∧ type = MEM_TYPE_WRITE)) → s1 = s) ∧
        (∀ a, a ≠ pte_addr s vaddr L → s1.mem a = s.mem a)) := by
  refine ⟨fun ex s1 h => ptw_raise_mem cfg s pte0 vaddr type ex s1 h, ?_, ?_⟩
  · intro s1 h
    obtain ⟨L, -, -, -, -, -, -, -, -, hv⟩ := ptw_ret_inv cfg s pte0 vaddr type _ s1 h
    have h0 : (MEM_RET_FAIL).testBit 0 = true := by decide
    rw [hv] at h0
    have hpg : ∀ p : PTE, (PGBASE p.ppn).testBit 0 = false := by
      intro p
      rw [PGBASE_ppn_testBit]
      rfl
    have hm : (not64 PGMASK).testBit 0 = false := by decide
    rw [Nat.testBit_or] at h0
    have hz : MEM_RET_OK.testBit 0 = false := by decide
    rw [hz, Bool.or_false] at h0
    split_ifs at h0
    · rw [Nat.testBit_or, Nat.testBit_and, Nat.testBit_and, hpg, hm] at h0
      simp at h0
    · rw [hpg] at h0
      cases h0
  · intro v s1 h
    obtain ⟨L, hL, -, hr, -, hleaf, -, -, hs1, -⟩ := ptw_ret_inv cfg s pte0 vaddr type v s1 h
    refine ⟨L, hL, hr, hleaf, ?_, ?_, ?_⟩
    · intro hsh
      rw [hs1, hsh]
      rfl
    · intro hn
      rw [hs1]
      split
      · rfl
      · exact ptw_update_ad_unchanged _ _ _ _ hn
    · intro a ha
      rw [hs1]
      split
      · rfl
      · exact ptw_update_ad_other _ _ _ _ _ ha

theorem force_raise_pf_rate_limit_witness :
    run_starts PfRecord.init 0x1000 MEM_TYPE_READ ∧
    count_class MEM_TYPE_READ
      [(0x1000, MEM_TYPE_READ), (0x2000, MEM_TYPE_WRITE), (0x1000, MEM_TYPE_READ),
       (0x1000, MEM_TYPE_READ), (0x1000, MEM_TYPE_READ)] + 1 = 5 ∧
    (force_raise_pf_record (record_all PfRecord.init
      [(0x1000, MEM_TYPE_READ), (0x2000, MEM_TYPE_WRITE), (0x1000, MEM_TYPE_READ),
       (0x1000, MEM_TYPE_READ), (0x1000, MEM_TYPE_READ)]) 0x1000 MEM_TYPE_READ).1 = true ∧
    ¬ (force_raise_pf_record (record_all PfRecord.init
      [(0x1000, MEM_TYPE_READ), (0x1000, MEM_TYPE_READ), (0x1000, MEM_TYPE_READ),
       (0x1000, MEM_TYPE_READ), (0x1000, MEM_TYPE_READ)]) 0x1000 MEM_TYPE_READ).1 = true :=
  ⟨Or.inr rfl, by decide,
   (force_raise_pf_rate_limit ⟨true, true, EX_LPF, 0, 0⟩ (demo_state (demo_mem 0))
      PfRecord.init 0x1000 MEM_TYPE_READ
      [(0x1000, MEM_TYPE_READ), (0x2000, MEM_TYPE_WRITE), (0x1000, MEM_TYPE_READ),
       (0x1000, MEM_TYPE_READ), (0x1000, MEM_TYPE_READ)]
      (Or.inr rfl) (by decide) (by decide)).1.mpr (by decide),
   fun h => absurd
    ((force_raise_pf_rate_limit ⟨true, true, EX_LPF, 0, 0⟩ (demo_state (demo_mem 0))
      PfRecord.init 0x1000 MEM_TYPE_READ
      [(0x1000, MEM_TYPE_READ), (0x1000, MEM_TYPE_READ), (0x1000, MEM_TYPE_READ),
       (0x1000, MEM_TYPE_READ), (0x1000, MEM_TYPE_READ)]
      (Or.inr rfl) (by decide) (by decide)).1.mp h) (by decide)⟩

theorem pmp_effective_mode_witness :
    pmp_eff_mode { demo_state (demo_mem 0) with mode := MODE_M, mprv := true, mpp := MODE_U }
      MEM_TYPE_READ MODE_M = MODE_U ∧
    pmp_eff_mode { demo_state (demo_mem 0) with mode := MODE_M, mprv := true, mpp := MODE_U }
      MEM_TYPE_IFETCH MODE_M = MODE_M ∧
    isa_pmp_check_permission (demo_pmp_napot 0x18)
      { demo_state (demo_mem 0) with mode := MODE_M, mprv := true, mpp := MODE_U }
      0x80000000 4 MEM_TYPE_READ MODE_M = false ∧
    isa_pmp_check_permission (demo_pmp_napot 0x18)
      { demo_state (demo_mem 0) with mode := MODE_M, mprv := true, mpp := MODE_U }
      0x80000000 4 MEM_TYPE_IFETCH MODE_M = true :=
  ⟨(pmp_effective_mode (demo_pmp_napot 0x18)
      { demo_state (demo_mem 0) with mode := MODE_M, mprv := true, mpp := MODE_U }
      0x80000000 4 MEM_TYPE_READ MODE_M).2.1 rfl rfl (by decide),
   (pmp_effective_mode (demo_pmp_napot 0x18)
      { demo_state (demo_mem 0) with mode := MODE_M, mprv := true, mpp := MODE_U }
      0x80000000 4 MEM_TYPE_IFETCH MODE_M).2.2.1 rfl (by decide),
   ((pmp_effective_mode (demo_pmp_napot 0x18)
      { demo_state (demo_mem 0) with mode := MODE_M, mprv := true, mpp := MODE_U }
      0x80000000 4 MEM_TYPE_READ MODE_M).2.2.2.1 rfl (by decide) (by decide)).trans
        (by decide),
   ((pmp_effective_mode (demo_pmp_napot 0x18)
      { demo_state (demo_mem 0) with mode := MODE_M, mprv := false, mpp := MODE_U }
      0x80000000 4 MEM_TYPE_IFETCH MODE_M).2.2.2.2 true).trans (by decide)⟩

theorem ptw_writes_only_on_success_witness :
    ptw cfg_hw (demo_state (demo_mem1 0)) ⟨0⟩ 0x10 MEM_TYPE_IFETCH =
      .raise EX_IPF (set_tval (demo_state (demo_mem1 0)) EX_IPF 0x10) ∧
    (set_tval (demo_state (demo_mem1 0)) EX_IPF 0x10).mem = (demo_state (demo_mem1 0)).mem ∧
    ptw cfg_hw (demo_state (demo_mem1 0x8000df)) ⟨0⟩ 0x123456 MEM_TYPE_WRITE =
      .ret 0x2123000 (demo_state (demo_mem1 0x8000df)) ∧
    (∃ L, L ≤ 2 ∧ walk_reaches (demo_state (demo_mem 0x80001f)) 0x10 L ∧
      pte_is_leaf (pte_at (demo_state (demo_mem 0x80001f)) 0x10 L) = true ∧
      ∀ a, a ≠ pte_addr (demo_state (demo_mem 0x80001f)) 0x10 L →
        (ptw_update_ad (demo_state (demo_mem 0x80001f)) ⟨0x80001f⟩ 0x1002000
          MEM_TYPE_WRITE).mem a = (demo_state (demo_mem 0x80001f)).mem a) ∧
    ptw cfg_hw (demo_state (demo_mem_hi 0 0x8000df)) ⟨0⟩ 0x123456 MEM_TYPE_WRITE =
      .raise EX_SPF (set_tval (demo_state (demo_mem_hi 0 0x8000df)) EX_SPF 0x123456) ∧
    (set_tval (demo_state (demo_mem_hi 0 0x8000df)) EX_SPF 0x123456).mem =
      (demo_state (demo_mem_hi 0 0x8000df)).mem ∧
    ptw cfg_hw (demo_state (demo_mem_hi 0x80001f 0)) ⟨0⟩ 0x123456 MEM_TYPE_WRITE =
      .ret 0x2123000 (ptw_update_ad (demo_state (demo_mem_hi 0x80001f 0)) ⟨0x80001f⟩ 0x1001000
        MEM_TYPE_WRITE) ∧
    ∃ L, L ≤ 2 ∧ walk_reaches (demo_state (demo_mem_hi 0x80001f 0)) 0x123456 L ∧
      pte_is_leaf (pte_at (demo_state (demo_mem_hi 0x80001f 0)) 0x123456 L) = true ∧
      ∀ a, a ≠ pte_addr (demo_state (demo_mem_hi 0x80001f 0)) 0x123456 L →
        (ptw_update_ad (demo_state (demo_mem_hi 0x80001f 0)) ⟨0x80001f⟩ 0x1001000
          MEM_TYPE_WRITE).mem a = (demo_state (demo_mem_hi 0x80001f 0)).mem a :=
  ⟨rfl,
   (ptw_writes_only_on_success cfg_hw (demo_state (demo_mem1 0)) ⟨0⟩ 0x10 MEM_TYPE_IFETCH).1
      EX_IPF (set_tval (demo_state (demo_mem1 0)) EX_IPF 0x10) rfl,
   rfl,
   match (ptw_writes_only_on_success cfg_hw (demo_state (demo_mem 0x80001f)) ⟨0⟩ 0x10
      MEM_TYPE_WRITE).2.2 0x2000000
      (ptw_update_ad (demo_state (demo_mem 0x80001f)) ⟨0x80001f⟩ 0x1002000 MEM_TYPE_WRITE)
      rfl with
   | ⟨L, h1, h2, h3, _, _, h6⟩ => ⟨L, h1, h2, h3, h6⟩,
   rfl,
   (ptw_writes_only_on_success cfg_hw (demo_state (demo_mem_hi 0 0x8000df)) ⟨0⟩ 0x123456
      MEM_TYPE_WRITE).1 EX_SPF (set_tval (demo_state (demo_mem_hi 0 0x8000df)) EX_SPF 0x123456)
      rfl,
   rfl,
   match (ptw_writes_only_on_success cfg_hw (demo_state (demo_mem_hi 0x80001f 0)) ⟨0⟩ 0x123456
      MEM_TYPE_WRITE).2.2 0x2123000
      (ptw_update_ad (demo_state (demo_mem_hi 0x80001f 0)) ⟨0x80001f⟩ 0x1001000 MEM_TYPE_WRITE)
      rfl with
   | ⟨L, h1, h2, h3, _, _, h6⟩ => ⟨L, h1, h2, h3, h6⟩⟩

end NEMU
